import Mathlib

/-!
Connection registries of `darwin/conn.go`.

A shallow embedding of the `conn` type of `src/darwin/conn.go`: its two
registries (`subs`, `chrReads`), both MTU fields and the `done` channel, with
the operations `newConn`, `SetRxMTU`, `SetTxMTU`, `processChrRead`,
`addChrReader`, `delChrReader`, `addSub` and `delSub`.

Conventions of the embedding.

* A Go `map[string]V` is an `AList` keyed by `String`: `m[k]` is `lookup`
  (`none` standing for Go's `nil` zero value), `m[k] = v` is `insert` and
  `delete(m, k)` is `erase`.  No operation of `conn.go` stores a `nil` value.
* Each operation on the registries runs under the connection's lock, so it is
  embedded as one atomic state transformer.  The lock itself is not part of
  the state `conn`; the locking of the two methods on `txMTU` is modelled
  separately, as lists of atomic actions run by a scheduler (`Act`, `Shared`).
* The effects of `processChrRead` (a channel send, a handler call, a log line)
  are recorded, in program order, in a list of `Effect`s.  The channels of
  `chrReads` are unbuffered, so a send `ch <- ev` completes only when a
  goroutine receives on `ch`; which channels have a receiver is the argument
  `recv` of `processChrRead`.  A call whose send nobody receives stays in that
  send: the send is its last effect and it does not return.
* Go's `int` is 64 bits wide; arithmetic on it wraps (`wrapInt`).
* `uuidStrWithDashes` is defined outside `conn.go`; every operation takes it as
  its first argument.
-/

namespace ble

/-- Modelled from the spec: `ble.UUID` is declared outside `conn.go`; the
connection only ever uses its `String()` rendering, kept here as `str`. -/
structure UUID where
  str : String
deriving DecidableEq, Repr

/-- The method `UUID.String()`. -/
def UUID.String (u : UUID) : String := u.str

/-- Modelled from the spec: `ble.Characteristic` is declared outside `conn.go`;
an addressable data point identified by a UUID.  `Handle` tells apart two
descriptors that carry the same UUID. -/
structure Characteristic where
  UUID : UUID
  Handle : Nat
deriving DecidableEq, Repr

/-- Modelled from the spec: `ble.NotificationHandler` is the function type
`func(req []byte)` declared outside `conn.go`.  A handler is a (non-nil)
function value, identified by `id`; calling it is an `Effect`. -/
structure NotificationHandler where
  id : Nat
deriving DecidableEq, Repr

end ble

namespace cbgo

/-- Modelled from the spec: `cbgo.UUID` is declared outside `conn.go`; only its
`String()` rendering is used. -/
structure UUID where
  str : String
deriving DecidableEq, Repr

/-- The method `UUID.String()`. -/
def UUID.String (u : UUID) : String := u.str

/-- Modelled from the spec: `cbgo.Characteristic` is declared outside
`conn.go`; `processChrRead` only reads its current payload through `Value()`. -/
structure Characteristic where
  value : List Nat
deriving DecidableEq, Repr

/-- The method `Characteristic.Value()`: the current payload bytes. -/
def Characteristic.Value (c : Characteristic) : List Nat := c.value

/-- Modelled from the spec: `cbgo.Peripheral` is declared outside `conn.go`;
`newConn` reads its identifier and its maximum write lengths.  The lengths are
Go `int`s; a statement that depends on their range carries the bounds of
`int` as hypotheses. -/
structure Peripheral where
  identifier : String
  maxWriteWithRsp : Int
  maxWriteWithoutRsp : Int
deriving DecidableEq, Repr

/-- The method `Peripheral.MaximumWriteValueLength(withRsp)`. -/
def Peripheral.MaximumWriteValueLength (p : Peripheral) (withRsp : Bool) : Int :=
  if withRsp then p.maxWriteWithRsp else p.maxWriteWithoutRsp

end cbgo

namespace darwin

deriving instance DecidableEq for Except

/-- A channel made by `make(chan *eventChrRead)`, identified by the order of
its creation. -/
structure Chan where
  id : Nat
deriving DecidableEq, Repr

/-- Modelled from the spec: `eventChrRead` is declared outside `conn.go`; an
incoming event carries the characteristic identifier and the raw payload. -/
structure eventChrRead where
  uuid : cbgo.UUID
  value : List Nat
deriving DecidableEq, Repr

/-- The `sub` struct: the two fields set by the literal in `addSub`. -/
structure sub where
  fn : ble.NotificationHandler
  char : ble.Characteristic
deriving DecidableEq, Repr

/-- The `conn` struct, restricted to the fields that `conn.go` reads or writes
after construction.  `done` is `true` once `close(c.done)` has run; `waiter`
is `true` while the goroutine started by `newConn` is still blocked on
`c.evl.disconnected`; `made` counts the channels `make` has returned so far. -/
structure conn where
  rxMTU : Int
  txMTU : Int
  addr : String
  done : Bool
  waiter : Bool
  subs : AList (fun _ : String => sub)
  chrReads : AList (fun _ : String => Chan)
  made : Nat

instance : DecidableEq conn := fun a b =>
  decidable_of_decidable_of_iff
    (p := a.rxMTU = b.rxMTU ∧ a.txMTU = b.txMTU ∧ a.addr = b.addr ∧ a.done = b.done ∧
      a.waiter = b.waiter ∧ a.subs.entries = b.subs.entries ∧
      a.chrReads.entries = b.chrReads.entries ∧ a.made = b.made)
    (by
      constructor
      · obtain ⟨r1, t1, a1, d1, w1, s1, c1, m1⟩ := a
        obtain ⟨r2, t2, a2, d2, w2, s2, c2, m2⟩ := b
        rintro ⟨h1, h2, h3, h4, h5, h6, h7, h8⟩
        simp only at h1 h2 h3 h4 h5 h6 h7 h8
        subst h1 h2 h3 h4 h5 h8
        have e1 : s1 = s2 := AList.ext h6
        have e2 : c1 = c2 := AList.ext h7
        subst e1 e2
        rfl
      · rintro rfl
        exact ⟨rfl, rfl, rfl, rfl, rfl, rfl, rfl, rfl⟩)

/-- What `processChrRead` does to the outside world. -/
inductive Effect where
  | send (ch : Chan) (ev : eventChrRead)
  | call (s : sub) (req : List Nat)
  | log (line : String)
deriving DecidableEq, Repr

/-- The line `processChrRead` passes to `log.Printf` for the key `uuidStr`. -/
def unclaimedLine (uuidStr : String) : String :=
  "received characteristic read response without corresponding request: uuid=" ++ uuidStr

/-- The message `addChrReader` passes to `fmt.Errorf` for the key `uuidStr`. -/
def duplicateReadError (uuidStr : String) : String :=
  "cannot read from the same attribute twice: uuid=" ++ uuidStr

/-- Go's `int` on darwin is 64 bits wide, two's complement: the value an
arithmetic result wraps to. -/
def wrapInt (x : Int) : Int := (x + 2 ^ 63) % 2 ^ 64 - 2 ^ 63

/-- The function `newConn`.  The subtraction is Go's, on `int`. -/
def newConn (prph : cbgo.Peripheral) : conn :=
  { rxMTU := 23
    txMTU := wrapInt (prph.MaximumWriteValueLength false - 3)
    addr := prph.identifier
    done := false
    waiter := true
    subs := ∅
    chrReads := ∅
    made := 0 }

/-- The goroutine of `newConn`: once the event listener signals the
disconnection it closes `c.done` and exits. -/
def disconnected (c : conn) : conn :=
  if c.waiter then { c with done := true, waiter := false } else c

def RxMTU (c : conn) : Int := c.rxMTU

def SetRxMTU (c : conn) (mtu : Int) : conn := { c with rxMTU := mtu }

def TxMTU (c : conn) : Int := c.txMTU

def SetTxMTU (c : conn) (mtu : Int) : conn := { c with txMTU := mtu }

/-- The method `Disconnected`, read as "has `c.done` been closed". -/
def Disconnected (c : conn) : Bool := c.done

/-- What one call of `processChrRead` amounts to: the connection it leaves,
the effects it performed in program order, and whether it returned.  An
`Effect.send` in the trace is the send statement having been executed; it has
completed unless the call did not return. -/
structure Dispatched where
  conn : conn
  trace : List Effect
  returned : Bool
deriving DecidableEq

/-- The send to the pending read under key `uuidStr` never completes: there is
a pending read under that key and no goroutine receives on its channel. -/
def sendBlocks (recv : Chan → Bool) (c : conn) (uuidStr : String) : Bool :=
  match c.chrReads.lookup uuidStr with
  | some ch => !recv ch
  | none => false

section ops

variable (uuidStrWithDashes : String → String)

/-- The method `processChrRead`.  `recv ch` tells whether a goroutine receives
on channel `ch`.  The channel of a pending read is unbuffered (`make` without a
size), so the send `ch <- ev` completes only if `recv ch`; otherwise the call
stays in the send for good, holding the read lock: the send is the last effect
of the trace, the subscription lookup is never reached and `returned` is
`false`. -/
def processChrRead (recv : Chan → Bool) (c : conn) (ev : eventChrRead)
    (cbchr : cbgo.Characteristic) : Dispatched :=
  let uuidStr := uuidStrWithDashes ev.uuid.String
  let r0 : Bool × List Effect := (false, [])
  let r1 : Bool × List Effect :=
    match c.chrReads.lookup uuidStr with
    | some ch => (true, r0.2 ++ [Effect.send ch ev])
    | none => r0
  if sendBlocks recv c uuidStr then ⟨c, r1.2, false⟩
  else
    let r2 : Bool × List Effect :=
      match c.subs.lookup uuidStr with
      | some s => (true, r1.2 ++ [Effect.call s cbchr.Value])
      | none => r1
    if !r2.1 then ⟨c, r2.2 ++ [Effect.log (unclaimedLine uuidStr)], true⟩ else ⟨c, r2.2, true⟩

/-- The method `addChrReader`: the returned pair `(channel, error)` as an
`Except`, and the connection afterwards. -/
def addChrReader (c : conn) (char : ble.Characteristic) : Except String Chan × conn :=
  let uuidStr := uuidStrWithDashes char.UUID.String
  match c.chrReads.lookup uuidStr with
  | some _ => (Except.error (duplicateReadError uuidStr), c)
  | none =>
    let ch : Chan := ⟨c.made⟩
    (Except.ok ch, { c with chrReads := c.chrReads.insert uuidStr ch, made := c.made + 1 })

/-- The method `delChrReader`. -/
def delChrReader (c : conn) (char : ble.Characteristic) : conn :=
  let uuidStr := uuidStrWithDashes char.UUID.String
  { c with chrReads := c.chrReads.erase uuidStr }

/-- The method `addSub`. -/
def addSub (c : conn) (char : ble.Characteristic) (fn : ble.NotificationHandler) : conn :=
  let uuidStr := uuidStrWithDashes char.UUID.String
  { c with subs := c.subs.insert uuidStr { fn := fn, char := char } }

/-- The method `delSub`. -/
def delSub (c : conn) (char : ble.Characteristic) : conn :=
  let uuidStr := uuidStrWithDashes char.UUID.String
  { c with subs := c.subs.erase uuidStr }

/-- One call on a connection that has returned, or one step of its background
goroutine. -/
inductive Op where
  | SetRxMTU (mtu : Int)
  | SetTxMTU (mtu : Int)
  | processChrRead (ev : eventChrRead) (cbchr : cbgo.Characteristic)
  | addChrReader (char : ble.Characteristic)
  | delChrReader (char : ble.Characteristic)
  | addSub (char : ble.Characteristic) (fn : ble.NotificationHandler)
  | delSub (char : ble.Characteristic)
  | disconnected
deriving DecidableEq

/-- The connection after one operation.  A dispatch that has returned had its
send, if any, received. -/
def step (c : conn) : Op → conn
  | Op.SetRxMTU mtu => SetRxMTU c mtu
  | Op.SetTxMTU mtu => SetTxMTU c mtu
  | Op.processChrRead ev cbchr =>
    (processChrRead uuidStrWithDashes (fun _ => true) c ev cbchr).1
  | Op.addChrReader char => (addChrReader uuidStrWithDashes c char).2
  | Op.delChrReader char => delChrReader uuidStrWithDashes c char
  | Op.addSub char fn => addSub uuidStrWithDashes c char fn
  | Op.delSub char => delSub uuidStrWithDashes c char
  | Op.disconnected => disconnected c

/-- The connection after a sequence of operations, first to last. -/
def run (c : conn) (ops : List Op) : conn :=
  ops.foldl (step uuidStrWithDashes) c

/-- The operation removes the pending-read entry under key `k`. -/
def Op.delsRead (k : String) : Op → Bool
  | Op.delChrReader char => decide (uuidStrWithDashes char.UUID.String = k)
  | _ => false

/-- The invariant of the registries: a subscription sits under the canonical
key of its own characteristic, every registered channel has been made, and no
channel is registered under two keys. -/
def WF (c : conn) : Prop :=
  (∀ e ∈ c.subs.entries, uuidStrWithDashes e.2.char.UUID.String = e.1) ∧
  (∀ e ∈ c.chrReads.entries, e.2.id < c.made) ∧
  (c.chrReads.entries.map (fun e => e.2)).Nodup

instance (c : conn) : Decidable (WF uuidStrWithDashes c) := by
  unfold WF
  infer_instance

/-- The states a connection can be in: those `newConn` returns and those an
operation leads to. -/
inductive Reachable : conn → Prop where
  | init (prph : cbgo.Peripheral) : Reachable (newConn prph)
  | next (c : conn) (op : Op) : Reachable c → Reachable (step uuidStrWithDashes c op)

/-- How many times `close(c.done)` is executed along a sequence of operations:
once for each step of the goroutine of `newConn` taken while it is still
blocked on `c.evl.disconnected`. -/
def closes (c : conn) : List Op → Nat
  | [] => 0
  | op :: rest =>
    (if op = Op.disconnected ∧ c.waiter = true then 1 else 0) +
      closes (step uuidStrWithDashes c op) rest

end ops

/-- The method `Close`: it calls `c.evl.Close()`, which acts on the event
listener outside `conn.go`, writes no field of the connection and returns a
nil error. -/
def Close (c : conn) : conn × Option String := (c, none)

/-- The atomic actions of the method bodies that touch `txMTU`: the four
operations of the embedded `sync.RWMutex`, the assignment `c.txMTU = mtu` and
the read in `return c.txMTU`. -/
inductive Act where
  | Lock
  | Unlock
  | RLock
  | RUnlock
  | store (mtu : Int)
  | load
deriving DecidableEq, Repr

/-- The body of `SetTxMTU(mtu)`, lines 91 to 93 of `conn.go`. -/
def SetTxMTU_body (mtu : Int) : List Act := [Act.Lock, Act.store mtu, Act.Unlock]

/-- The body of `TxMTU()`, line 87 of `conn.go`. -/
def TxMTU_body : List Act := [Act.load]

/-- The field `txMTU` together with the state of the connection's lock:
`writer` is the goroutine holding it exclusively, `readers` those holding it
shared.  `loads` records every read of `txMTU`: the reading goroutine, the
value read, and whether another goroutine held the exclusive lock at that
moment. -/
structure Shared where
  txMTU : Int
  writer : Option Nat
  readers : List Nat
  loads : List (Nat × Int × Bool)
deriving DecidableEq, Repr

/-- One atomic action of goroutine `g`; `none` when the action cannot proceed
(a `Lock` or `RLock` that has to wait, an unlock by a goroutine that does not
hold the lock). -/
def Shared.exec (m : Shared) (g : Nat) : Act → Option Shared
  | Act.Lock =>
    if m.writer = none ∧ m.readers = [] then some { m with writer := some g } else none
  | Act.Unlock =>
    if m.writer = some g then some { m with writer := none } else none
  | Act.RLock =>
    if m.writer = none then some { m with readers := g :: m.readers } else none
  | Act.RUnlock =>
    if g ∈ m.readers then some { m with readers := m.readers.erase g } else none
  | Act.store mtu => some { m with txMTU := mtu }
  | Act.load =>
    let guarded : Bool := match m.writer with
      | some w => decide (w ≠ g)
      | none => false
    some { m with loads := m.loads ++ [(g, m.txMTU, guarded)] }

/-- A schedule, one `(goroutine, action)` pair after the other; `none` when
some action cannot proceed at its turn. -/
def Shared.runSched (m : Shared) : List (Nat × Act) → Option Shared
  | [] => some m
  | (g, a) :: rest =>
    match m.exec g a with
    | some m2 => m2.runSched rest
    | none => none

/-- The actions goroutine `g` performs in a schedule, in order. -/
def actsOf (g : Nat) (sched : List (Nat × Act)) : List Act :=
  (sched.filter (fun p => p.1 = g)).map (fun p => p.2)

/-- The channel sends of a trace, in order. -/
def sends (tr : List Effect) : List (Chan × eventChrRead) :=
  tr.filterMap (fun e => match e with
    | Effect.send ch ev => some (ch, ev)
    | _ => none)

/-- The handler invocations of a trace, in order. -/
def calls (tr : List Effect) : List (sub × List Nat) :=
  tr.filterMap (fun e => match e with
    | Effect.call s req => some (s, req)
    | _ => none)

/-- The log lines of a trace, in order. -/
def logs (tr : List Effect) : List String :=
  tr.filterMap (fun e => match e with
    | Effect.log line => some line
    | _ => none)

/-- A sample canonicalizer for concrete evaluations: a 32-character identifier
is cut 8-4-4-4-12 and joined with dashes, any other string is kept. -/
def sampleDashes (s : String) : String :=
  if s.length = 32 then
    String.intercalate "-"
      [ String.mk (s.data.take 8), String.mk ((s.data.drop 8).take 4),
        String.mk ((s.data.drop 12).take 4), String.mk ((s.data.drop 16).take 4),
        String.mk (s.data.drop 20) ]
  else s

end darwin

namespace darwin

/-! ## Basic facts about the operations -/

section lemmas

variable (f : String → String) (recv : Chan → Bool)

theorem processChrRead_conn (c : conn) (ev : eventChrRead) (cb : cbgo.Characteristic) :
    (processChrRead f recv c ev cb).1 = c := by
  unfold processChrRead
  dsimp only
  split
  · rfl
  · split <;> rfl

theorem processChrRead_both (c : conn) (ev : eventChrRead) (cb : cbgo.Characteristic)
    (ch : Chan) (s : sub)
    (hr : c.chrReads.lookup (f ev.uuid.String) = some ch)
    (hs : c.subs.lookup (f ev.uuid.String) = some s)
    (hrecv : recv ch = true) :
    processChrRead f recv c ev cb = ⟨c, [Effect.send ch ev, Effect.call s cb.Value], true⟩ := by
  simp [processChrRead, sendBlocks, hr, hs, hrecv]

/-- A pending read whose channel nobody receives on: the call stays in the
send. -/
theorem processChrRead_blocked (c : conn) (ev : eventChrRead) (cb : cbgo.Characteristic)
    (ch : Chan)
    (hr : c.chrReads.lookup (f ev.uuid.String) = some ch)
    (hrecv : recv ch = false) :
    processChrRead f recv c ev cb = ⟨c, [Effect.send ch ev], false⟩ := by
  simp [processChrRead, sendBlocks, hr, hrecv]

theorem processChrRead_readOnly (c : conn) (ev : eventChrRead) (cb : cbgo.Characteristic)
    (ch : Chan)
    (hr : c.chrReads.lookup (f ev.uuid.String) = some ch)
    (hs : c.subs.lookup (f ev.uuid.String) = none) :
    (processChrRead f recv c ev cb).2 = [Effect.send ch ev] := by
  cases hrecv : recv ch <;> simp [processChrRead, sendBlocks, hr, hs, hrecv]

theorem processChrRead_subOnly (c : conn) (ev : eventChrRead) (cb : cbgo.Characteristic)
    (s : sub)
    (hr : c.chrReads.lookup (f ev.uuid.String) = none)
    (hs : c.subs.lookup (f ev.uuid.String) = some s) :
    processChrRead f recv c ev cb = ⟨c, [Effect.call s cb.Value], true⟩ := by
  simp [processChrRead, sendBlocks, hr, hs]

theorem processChrRead_unclaimed (c : conn) (ev : eventChrRead) (cb : cbgo.Characteristic)
    (hr : c.chrReads.lookup (f ev.uuid.String) = none)
    (hs : c.subs.lookup (f ev.uuid.String) = none) :
    processChrRead f recv c ev cb =
      ⟨c, [Effect.log (unclaimedLine (f ev.uuid.String))], true⟩ := by
  simp [processChrRead, sendBlocks, hr, hs]

theorem addChrReader_of_pending (c : conn) (char : ble.Characteristic) (ch : Chan)
    (h : c.chrReads.lookup (f char.UUID.String) = some ch) :
    addChrReader f c char = (Except.error (duplicateReadError (f char.UUID.String)), c) := by
  simp [addChrReader, h]

theorem addChrReader_of_free (c : conn) (char : ble.Characteristic)
    (h : c.chrReads.lookup (f char.UUID.String) = none) :
    addChrReader f c char =
      (Except.ok ⟨c.made⟩,
        { c with chrReads := c.chrReads.insert (f char.UUID.String) ⟨c.made⟩,
                 made := c.made + 1 }) := by
  simp [addChrReader, h]

/-- After `addChrReader`, whatever it returned, the key holds a pending read. -/
theorem addChrReader_pending_after (c : conn) (char : ble.Characteristic) :
    ((addChrReader f c char).2.chrReads.lookup (f char.UUID.String)).isSome = true := by
  cases h : c.chrReads.lookup (f char.UUID.String) with
  | none => simp [addChrReader_of_free f c char h]
  | some ch => simp [addChrReader_of_pending f c char ch h, h]

/-- A pending read stays registered across any operation other than a
`delChrReader` for the same key. -/
theorem pending_step (c : conn) (k : String) (op : Op)
    (hp : (c.chrReads.lookup k).isSome = true) (hd : Op.delsRead f k op = false) :
    ((step f c op).chrReads.lookup k).isSome = true := by
  cases op with
  | SetRxMTU mtu => simpa [step, SetRxMTU] using hp
  | SetTxMTU mtu => simpa [step, SetTxMTU] using hp
  | processChrRead ev cb => simpa [step, processChrRead_conn] using hp
  | addChrReader char =>
    cases h : c.chrReads.lookup (f char.UUID.String) with
    | none =>
      by_cases hk : k = f char.UUID.String
      · subst hk
        simp [step, addChrReader_of_free f c char h]
      · simpa [step, addChrReader_of_free f c char h, AList.lookup_insert_ne hk] using hp
    | some ch => simpa [step, addChrReader_of_pending f c char ch h] using hp
  | delChrReader char =>
    have hk : k ≠ f char.UUID.String := by
      intro e
      simp [Op.delsRead, e] at hd
    simpa [step, delChrReader, AList.lookup_erase_ne hk] using hp
  | addSub char fn => simpa [step, addSub] using hp
  | delSub char => simpa [step, delSub] using hp
  | disconnected =>
    by_cases hw : c.waiter = true
    · simpa [step, disconnected, hw] using hp
    · simpa [step, disconnected, hw] using hp

theorem pending_run (ops : List Op) (c : conn) (k : String)
    (hp : (c.chrReads.lookup k).isSome = true)
    (hd : ∀ op ∈ ops, Op.delsRead f k op = false) :
    ((run f c ops).chrReads.lookup k).isSome = true := by
  induction ops generalizing c with
  | nil => simpa [run] using hp
  | cons op rest ih =>
    have h1 := pending_step f c k op hp (hd op (List.mem_cons_self _ _))
    have h2 := ih (step f c op) h1 (fun o ho => hd o (List.mem_cons_of_mem _ ho))
    simpa [run] using h2

/-- The effects of `processChrRead`, by the two lookups under the event's key:
a send on the pending-read channel if there is one, then, unless that send is
never received, a call of the subscription if there is one, and the log line
if there is neither. -/
theorem processChrRead_trace (c : conn) (ev : eventChrRead) (cb : cbgo.Characteristic) :
    (processChrRead f recv c ev cb).2 =
      (match c.chrReads.lookup (f ev.uuid.String) with
        | some ch => [Effect.send ch ev]
        | none => []) ++
      (if sendBlocks recv c (f ev.uuid.String) = true then []
        else match c.subs.lookup (f ev.uuid.String) with
          | some s => [Effect.call s cb.Value]
          | none => []) ++
      (if (c.chrReads.lookup (f ev.uuid.String)).isNone ∧ (c.subs.lookup (f ev.uuid.String)).isNone
        then [Effect.log (unclaimedLine (f ev.uuid.String))] else []) := by
  cases hr : c.chrReads.lookup (f ev.uuid.String) with
  | none =>
    cases hs : c.subs.lookup (f ev.uuid.String) <;>
      simp [processChrRead, sendBlocks, hr, hs]
  | some ch =>
    cases hs : c.subs.lookup (f ev.uuid.String) <;>
      cases hrecv : recv ch <;>
      simp [processChrRead, sendBlocks, hr, hs, hrecv]

/-- The call returns unless it stays in a send nobody receives. -/
theorem processChrRead_returned (c : conn) (ev : eventChrRead) (cb : cbgo.Characteristic) :
    (processChrRead f recv c ev cb).returned = !sendBlocks recv c (f ev.uuid.String) := by
  unfold processChrRead
  dsimp only
  split
  · rename_i h
    simp [h]
  · rename_i h
    split <;> simp [h]

theorem mem_send_processChrRead (c : conn) (ev : eventChrRead) (cb : cbgo.Characteristic)
    (ch : Chan) (e : eventChrRead) :
    Effect.send ch e ∈ (processChrRead f recv c ev cb).2 ↔
      c.chrReads.lookup (f ev.uuid.String) = some ch ∧ e = ev := by
  rw [processChrRead_trace]
  cases hr : c.chrReads.lookup (f ev.uuid.String) <;>
    cases hs : c.subs.lookup (f ev.uuid.String) <;>
    cases hb : sendBlocks recv c (f ev.uuid.String) <;>
    simp [eq_comm]

theorem mem_call_processChrRead (c : conn) (ev : eventChrRead) (cb : cbgo.Characteristic)
    (s : sub) (v : List Nat) :
    Effect.call s v ∈ (processChrRead f recv c ev cb).2 ↔
      sendBlocks recv c (f ev.uuid.String) = false ∧
        c.subs.lookup (f ev.uuid.String) = some s ∧ v = cb.Value := by
  rw [processChrRead_trace]
  cases hr : c.chrReads.lookup (f ev.uuid.String) <;>
    cases hs : c.subs.lookup (f ev.uuid.String) <;>
    cases hb : sendBlocks recv c (f ev.uuid.String) <;>
    simp [eq_comm]

theorem mem_log_processChrRead (c : conn) (ev : eventChrRead) (cb : cbgo.Characteristic)
    (line : String) :
    Effect.log line ∈ (processChrRead f recv c ev cb).2 ↔
      c.chrReads.lookup (f ev.uuid.String) = none ∧ c.subs.lookup (f ev.uuid.String) = none ∧
        line = unclaimedLine (f ev.uuid.String) := by
  rw [processChrRead_trace]
  cases hr : c.chrReads.lookup (f ev.uuid.String) <;>
    cases hs : c.subs.lookup (f ev.uuid.String) <;>
    cases hb : sendBlocks recv c (f ev.uuid.String) <;>
    simp

theorem sends_processChrRead (c : conn) (ev : eventChrRead) (cb : cbgo.Characteristic) :
    sends (processChrRead f recv c ev cb).2 =
      match c.chrReads.lookup (f ev.uuid.String) with
      | some ch => [(ch, ev)]
      | none => [] := by
  rw [processChrRead_trace]
  cases hr : c.chrReads.lookup (f ev.uuid.String) <;>
    cases hs : c.subs.lookup (f ev.uuid.String) <;>
    cases hb : sendBlocks recv c (f ev.uuid.String) <;>
    simp [sends]

theorem calls_processChrRead (c : conn) (ev : eventChrRead) (cb : cbgo.Characteristic) :
    calls (processChrRead f recv c ev cb).2 =
      if sendBlocks recv c (f ev.uuid.String) = true then []
      else match c.subs.lookup (f ev.uuid.String) with
        | some s => [(s, cb.Value)]
        | none => [] := by
  rw [processChrRead_trace]
  cases hr : c.chrReads.lookup (f ev.uuid.String) <;>
    cases hs : c.subs.lookup (f ev.uuid.String) <;>
    cases hb : sendBlocks recv c (f ev.uuid.String) <;>
    simp [calls]

theorem logs_processChrRead (c : conn) (ev : eventChrRead) (cb : cbgo.Characteristic) :
    logs (processChrRead f recv c ev cb).2 =
      if (c.chrReads.lookup (f ev.uuid.String)).isNone ∧ (c.subs.lookup (f ev.uuid.String)).isNone
      then [unclaimedLine (f ev.uuid.String)] else [] := by
  rw [processChrRead_trace]
  cases hr : c.chrReads.lookup (f ev.uuid.String) <;>
    cases hs : c.subs.lookup (f ev.uuid.String) <;>
    cases hb : sendBlocks recv c (f ev.uuid.String) <;>
    simp [logs]

/-- Without a pending read under the key no send can block. -/
theorem sendBlocks_of_none (c : conn) (k : String) (h : c.chrReads.lookup k = none) :
    sendBlocks recv c k = false := by
  simp [sendBlocks, h]

theorem sendBlocks_of_some (c : conn) (k : String) (ch : Chan)
    (h : c.chrReads.lookup k = some ch) : sendBlocks recv c k = !recv ch := by
  simp [sendBlocks, h]

/-! ### The registry invariant -/

theorem WF_newConn (prph : cbgo.Peripheral) : WF f (newConn prph) := by
  refine ⟨?_, ?_, ?_⟩ <;> simp [newConn]

theorem WF_subs_key {c : conn} (h : WF f c) {k : String} {s : sub}
    (hs : c.subs.lookup k = some s) : f s.char.UUID.String = k :=
  h.1 ⟨k, s⟩ (AList.mem_lookup_iff.mp hs)

theorem WF_chan_lt {c : conn} (h : WF f c) {k : String} {ch : Chan}
    (hc : c.chrReads.lookup k = some ch) : ch.id < c.made :=
  h.2.1 ⟨k, ch⟩ (AList.mem_lookup_iff.mp hc)

theorem WF_chan_inj {c : conn} (h : WF f c) {k1 k2 : String} {ch : Chan}
    (h1 : c.chrReads.lookup k1 = some ch) (h2 : c.chrReads.lookup k2 = some ch) : k1 = k2 := by
  have m1 := AList.mem_lookup_iff.mp h1
  have m2 := AList.mem_lookup_iff.mp h2
  have e := List.inj_on_of_nodup_map h.2.2 m1 m2 rfl
  exact congrArg Sigma.fst e

theorem WF_addChrReader {c : conn} (h : WF f c) (char : ble.Characteristic) :
    WF f (addChrReader f c char).2 := by
  cases hl : c.chrReads.lookup (f char.UUID.String) with
  | some ch => rw [addChrReader_of_pending f c char ch hl]; exact h
  | none =>
    rw [addChrReader_of_free f c char hl]
    have hsub := List.kerase_sublist (f char.UUID.String) c.chrReads.entries
    refine ⟨h.1, ?_, ?_⟩
    · intro e he
      simp only [AList.insert_entries, List.mem_cons] at he
      rcases he with rfl | he
      · exact Nat.lt_succ_self _
      · exact Nat.lt_succ_of_lt (h.2.1 e (hsub.subset he))
    · simp only [AList.insert_entries, List.map_cons, List.nodup_cons]
      refine ⟨?_, (hsub.map _).nodup h.2.2⟩
      intro hm
      obtain ⟨e, he, hee⟩ := List.mem_map.mp hm
      have := h.2.1 e (hsub.subset he)
      rw [hee] at this
      exact Nat.lt_irrefl _ this

theorem WF_delChrReader {c : conn} (h : WF f c) (char : ble.Characteristic) :
    WF f (delChrReader f c char) := by
  have hsub := List.kerase_sublist (f char.UUID.String) c.chrReads.entries
  refine ⟨h.1, ?_, ?_⟩
  · intro e he
    exact h.2.1 e (hsub.subset he)
  · exact (hsub.map _).nodup h.2.2

theorem WF_addSub {c : conn} (h : WF f c) (char : ble.Characteristic)
    (fn : ble.NotificationHandler) : WF f (addSub f c char fn) := by
  have hsub := List.kerase_sublist (f char.UUID.String) c.subs.entries
  refine ⟨?_, h.2.1, h.2.2⟩
  intro e he
  simp only [addSub, AList.insert_entries, List.mem_cons] at he
  rcases he with rfl | he
  · rfl
  · exact h.1 e (hsub.subset he)

theorem WF_delSub {c : conn} (h : WF f c) (char : ble.Characteristic) :
    WF f (delSub f c char) := by
  have hsub := List.kerase_sublist (f char.UUID.String) c.subs.entries
  refine ⟨?_, h.2.1, h.2.2⟩
  intro e he
  exact h.1 e (hsub.subset he)

theorem WF_step {c : conn} (h : WF f c) (op : Op) : WF f (step f c op) := by
  cases op with
  | SetRxMTU mtu => exact h
  | SetTxMTU mtu => exact h
  | processChrRead ev cb => simpa [step, processChrRead_conn] using h
  | addChrReader char => exact WF_addChrReader f h char
  | delChrReader char => exact WF_delChrReader f h char
  | addSub char fn => exact WF_addSub f h char fn
  | delSub char => exact WF_delSub f h char
  | disconnected =>
    by_cases hw : c.waiter = true
    · simpa [step, disconnected, hw] using h
    · simpa [step, disconnected, hw] using h

theorem WF_run (ops : List Op) {c : conn} (h : WF f c) : WF f (run f c ops) := by
  induction ops generalizing c with
  | nil => exact h
  | cons op rest ih => exact ih (WF_step f h op)

/-- Every reachable state satisfies the registry invariant. -/
theorem WF_of_Reachable {c : conn} (h : Reachable f c) : WF f c := by
  induction h with
  | init prph => exact WF_newConn f prph
  | next c op _ ih => exact WF_step f ih op

/-! ### Frame facts -/

theorem AList_erase_of_lookup_none {V : Type} (m : AList (fun _ : String => V)) (k : String)
    (h : m.lookup k = none) : m.erase k = m := by
  apply AList.ext
  have hk : k ∉ m.keys := fun hm => (AList.lookup_eq_none.mp h) (AList.mem_keys.mpr hm)
  simpa [AList.erase] using List.kerase_of_not_mem_keys hk

theorem AList_erase_idem {V : Type} (m : AList (fun _ : String => V)) (k : String) :
    (m.erase k).erase k = m.erase k :=
  AList_erase_of_lookup_none _ k (AList.lookup_erase k m)

/-- The fields `addChrReader` leaves alone. -/
theorem addChrReader_frame (c : conn) (char : ble.Characteristic) :
    (addChrReader f c char).2.subs = c.subs ∧
    (addChrReader f c char).2.rxMTU = c.rxMTU ∧
    (addChrReader f c char).2.txMTU = c.txMTU ∧
    (addChrReader f c char).2.addr = c.addr ∧
    (addChrReader f c char).2.done = c.done ∧
    (addChrReader f c char).2.waiter = c.waiter := by
  cases h : c.chrReads.lookup (f char.UUID.String) with
  | none => simp [addChrReader_of_free f c char h]
  | some ch => simp [addChrReader_of_pending f c char ch h]

/-- The goroutine state after one operation: only its own step ends it. -/
theorem step_waiter (c : conn) (op : Op) :
    (step f c op).waiter = (if op = Op.disconnected then false else c.waiter) := by
  cases op with
  | SetRxMTU mtu => simp [step, SetRxMTU]
  | SetTxMTU mtu => simp [step, SetTxMTU]
  | processChrRead ev cb => simp [step, processChrRead_conn]
  | addChrReader char => simp [step, (addChrReader_frame f c char).2.2.2.2.2]
  | delChrReader char => simp [step, delChrReader]
  | addSub char fn => simp [step, addSub]
  | delSub char => simp [step, delSub]
  | disconnected =>
    by_cases hw : c.waiter = true
    · simp [step, disconnected, hw]
    · have hw2 : c.waiter = false := by simpa using hw
      simp [step, disconnected, hw2]

/-- The signal after one operation: only the step of the goroutine, taken while
it is still waiting, closes `c.done`; nothing reopens it. -/
theorem step_done (c : conn) (op : Op) :
    (step f c op).done =
      (if op = Op.disconnected ∧ c.waiter = true then true else c.done) := by
  cases op with
  | SetRxMTU mtu => simp [step, SetRxMTU]
  | SetTxMTU mtu => simp [step, SetTxMTU]
  | processChrRead ev cb => simp [step, processChrRead_conn]
  | addChrReader char => simp [step, (addChrReader_frame f c char).2.2.2.2.1]
  | delChrReader char => simp [step, delChrReader]
  | addSub char fn => simp [step, addSub]
  | delSub char => simp [step, delSub]
  | disconnected =>
    by_cases hw : c.waiter = true
    · simp [step, disconnected, hw]
    · simp [step, disconnected, hw]

theorem closes_eq (ops : List Op) (c : conn) :
    closes f c ops = (if c.waiter = true ∧ Op.disconnected ∈ ops then 1 else 0) := by
  induction ops generalizing c with
  | nil => simp [closes]
  | cons op rest ih =>
    rw [closes, ih, step_waiter]
    by_cases ho : op = Op.disconnected
    · subst ho
      by_cases hw : c.waiter = true <;> simp [hw]
    · have ho2 : ¬ Op.disconnected = op := fun e => ho e.symm
      simp [ho, ho2]

theorem run_done (ops : List Op) (c : conn) :
    (run f c ops).done = (c.done || (c.waiter && decide (Op.disconnected ∈ ops))) := by
  induction ops generalizing c with
  | nil => simp [run]
  | cons op rest ih =>
    have hrun : run f c (op :: rest) = run f (step f c op) rest := rfl
    rw [hrun, ih, step_waiter, step_done]
    by_cases ho : op = Op.disconnected
    · subst ho
      by_cases hw : c.waiter = true <;> simp [hw]
    · have ho2 : ¬ Op.disconnected = op := fun e => ho e.symm
      simp [ho, ho2]

end lemmas

/-! ## The claims -/

/-- C1: `addChrReader(C)` returns the duplicate-read error (and no channel)
exactly when `chrReads` already holds an entry under the canonical key of `C`,
and otherwise returns a channel; and for every state, a second
`addChrReader(C)` fails when no `delChrReader` for that key ran since the first
call, whatever other operations ran in between. -/
theorem C1_addChrReader_duplicate (f : String → String) (c : conn) (char : ble.Characteristic) :
    ((addChrReader f c char).1 = Except.error (duplicateReadError (f char.UUID.String)) ↔
        (c.chrReads.lookup (f char.UUID.String)).isSome = true) ∧
    ((∃ ch, (addChrReader f c char).1 = Except.ok ch) ↔
        c.chrReads.lookup (f char.UUID.String) = none) ∧
    (∀ ops : List Op, (∀ op ∈ ops, Op.delsRead f (f char.UUID.String) op = false) →
      (addChrReader f (run f (addChrReader f c char).2 ops) char).1 =
        Except.error (duplicateReadError (f char.UUID.String))) := by
  refine ⟨?_, ?_, ?_⟩
  · cases h : c.chrReads.lookup (f char.UUID.String) with
    | none => simp [addChrReader_of_free f c char h]
    | some ch => simp [addChrReader_of_pending f c char ch h]
  · cases h : c.chrReads.lookup (f char.UUID.String) with
    | none => simp [addChrReader_of_free f c char h]
    | some ch => simp [addChrReader_of_pending f c char ch h]
  · intro ops hops
    have h1 := pending_run f ops _ _ (addChrReader_pending_after f c char) hops
    obtain ⟨ch, hch⟩ := Option.isSome_iff_exists.mp h1
    rw [addChrReader_of_pending f _ char ch hch]

/-- C1 at a concrete input: a read for 2a37, then a subscription, a dispatch
and a read for 2a38, then the second read for 2a37. -/
theorem C1_addChrReader_duplicate_witness :
    (addChrReader sampleDashes
        (run sampleDashes (addChrReader sampleDashes (newConn ⟨"p", 185, 512⟩) ⟨⟨"2a37"⟩, 1⟩).2
          [Op.addSub ⟨⟨"2a37"⟩, 1⟩ ⟨7⟩, Op.processChrRead ⟨⟨"2a37"⟩, [1]⟩ ⟨[1]⟩,
           Op.addChrReader ⟨⟨"2a38"⟩, 2⟩, Op.delChrReader ⟨⟨"2a38"⟩, 2⟩])
        ⟨⟨"2a37"⟩, 1⟩).1 = Except.error (duplicateReadError "2a37") :=
  (C1_addChrReader_duplicate sampleDashes (newConn ⟨"p", 185, 512⟩) ⟨⟨"2a37"⟩, 1⟩).2.2
    [Op.addSub ⟨⟨"2a37"⟩, 1⟩ ⟨7⟩, Op.processChrRead ⟨⟨"2a37"⟩, [1]⟩ ⟨[1]⟩,
     Op.addChrReader ⟨⟨"2a38"⟩, 2⟩, Op.delChrReader ⟨⟨"2a38"⟩, 2⟩] (by decide)

/-- C2, as stated, fails: on a fresh connection a read for 2a37 is registered
on channel 0, the event for 2a37 is sent on that channel, received, and the
call returns; the next `addChrReader` for 2a37 is rejected, since
`processChrRead` leaves the entry in place. -/
theorem C2_counterexample :
    (addChrReader sampleDashes (newConn ⟨"p", 185, 512⟩) ⟨⟨"2a37"⟩, 1⟩).1 = Except.ok ⟨0⟩ ∧
    (processChrRead sampleDashes (fun _ => true)
        (addChrReader sampleDashes (newConn ⟨"p", 185, 512⟩) ⟨⟨"2a37"⟩, 1⟩).2
        ⟨⟨"2a37"⟩, [72]⟩ ⟨[72]⟩).2 = [Effect.send ⟨0⟩ ⟨⟨"2a37"⟩, [72]⟩] ∧
    (processChrRead sampleDashes (fun _ => true)
        (addChrReader sampleDashes (newConn ⟨"p", 185, 512⟩) ⟨⟨"2a37"⟩, 1⟩).2
        ⟨⟨"2a37"⟩, [72]⟩ ⟨[72]⟩).returned = true ∧
    (addChrReader sampleDashes
        (processChrRead sampleDashes (fun _ => true)
          (addChrReader sampleDashes (newConn ⟨"p", 185, 512⟩) ⟨⟨"2a37"⟩, 1⟩).2
          ⟨⟨"2a37"⟩, [72]⟩ ⟨[72]⟩).1
        ⟨⟨"2a37"⟩, 1⟩).1 = Except.error (duplicateReadError "2a37") := by
  decide

/-- C2, amended: after `addChrReader(C)` succeeded with channel `ch` and an
event for `C` has been delivered on `ch` by `processChrRead` (the call sends
it on `ch`, whichever goroutines receive), the entry is still registered: a
following `addChrReader(C)` fails with the duplicate-read error, and it
succeeds once `delChrReader(C)` has been called in between. -/
theorem C2_read_after_delivery (f : String → String) (recv : Chan → Bool) (c : conn)
    (char : ble.Characteristic)
    (ch : Chan) (ev : eventChrRead) (cb : cbgo.Characteristic)
    (hadd : (addChrReader f c char).1 = Except.ok ch)
    (hev : f ev.uuid.String = f char.UUID.String) :
    Effect.send ch ev ∈ (processChrRead f recv (addChrReader f c char).2 ev cb).2 ∧
    (addChrReader f (processChrRead f recv (addChrReader f c char).2 ev cb).1 char).1 =
      Except.error (duplicateReadError (f char.UUID.String)) ∧
    ∃ ch2, (addChrReader f
        (delChrReader f (processChrRead f recv (addChrReader f c char).2 ev cb).1 char) char).1 =
      Except.ok ch2 := by
  cases hl : c.chrReads.lookup (f char.UUID.String) with
  | some ch0 => simp [addChrReader_of_pending f c char ch0 hl] at hadd
  | none =>
    rw [addChrReader_of_free f c char hl] at hadd ⊢
    simp only [Except.ok.injEq] at hadd
    subst hadd
    refine ⟨?_, ?_, ?_⟩
    · rw [mem_send_processChrRead, hev]
      exact ⟨AList.lookup_insert _, rfl⟩
    · rw [processChrRead_conn]
      exact congrArg Prod.fst (addChrReader_of_pending f _ char ⟨c.made⟩ (by simp))
    · rw [processChrRead_conn]
      refine ⟨_, congrArg Prod.fst (addChrReader_of_free f _ char ?_)⟩
      simp [delChrReader]

/-- C2 (amended) at a concrete input. -/
theorem C2_read_after_delivery_witness :
    Effect.send ⟨0⟩ ⟨⟨"2a37"⟩, [72]⟩ ∈
      (processChrRead sampleDashes (fun _ => true)
        (addChrReader sampleDashes (newConn ⟨"p", 185, 512⟩) ⟨⟨"2a37"⟩, 1⟩).2
        ⟨⟨"2a37"⟩, [72]⟩ ⟨[72]⟩).2 ∧
    (addChrReader sampleDashes
        (processChrRead sampleDashes (fun _ => true)
          (addChrReader sampleDashes (newConn ⟨"p", 185, 512⟩) ⟨⟨"2a37"⟩, 1⟩).2
          ⟨⟨"2a37"⟩, [72]⟩ ⟨[72]⟩).1
        ⟨⟨"2a37"⟩, 1⟩).1 = Except.error (duplicateReadError (sampleDashes "2a37")) ∧
    ∃ ch2, (addChrReader sampleDashes
        (delChrReader sampleDashes
          (processChrRead sampleDashes (fun _ => true)
            (addChrReader sampleDashes (newConn ⟨"p", 185, 512⟩) ⟨⟨"2a37"⟩, 1⟩).2
            ⟨⟨"2a37"⟩, [72]⟩ ⟨[72]⟩).1 ⟨⟨"2a37"⟩, 1⟩)
        ⟨⟨"2a37"⟩, 1⟩).1 = Except.ok ch2 :=
  C2_read_after_delivery sampleDashes (fun _ => true) (newConn ⟨"p", 185, 512⟩) ⟨⟨"2a37"⟩, 1⟩ ⟨0⟩
    ⟨⟨"2a37"⟩, [72]⟩ ⟨[72]⟩ (by decide) (by decide)

/-- C3, as stated, fails: with a read pending on channel 0 and handler 7
subscribed, both for 2a37, and no goroutine receiving on channel 0, the call
for an event for 2a37 stays in the send: it never calls the handler and does
not return. -/
theorem C3_counterexample :
    (addSub sampleDashes
        (addChrReader sampleDashes (newConn ⟨"p", 185, 512⟩) ⟨⟨"2a37"⟩, 1⟩).2
        ⟨⟨"2a37"⟩, 1⟩ ⟨7⟩).chrReads.lookup "2a37" = some ⟨0⟩ ∧
    (addSub sampleDashes
        (addChrReader sampleDashes (newConn ⟨"p", 185, 512⟩) ⟨⟨"2a37"⟩, 1⟩).2
        ⟨⟨"2a37"⟩, 1⟩ ⟨7⟩).subs.lookup "2a37" = some ⟨⟨7⟩, ⟨⟨"2a37"⟩, 1⟩⟩ ∧
    (processChrRead sampleDashes (fun _ => false)
        (addSub sampleDashes
          (addChrReader sampleDashes (newConn ⟨"p", 185, 512⟩) ⟨⟨"2a37"⟩, 1⟩).2
          ⟨⟨"2a37"⟩, 1⟩ ⟨7⟩)
        ⟨⟨"2a37"⟩, [72]⟩ ⟨[80]⟩).2 = [Effect.send ⟨0⟩ ⟨⟨"2a37"⟩, [72]⟩] ∧
    calls (processChrRead sampleDashes (fun _ => false)
        (addSub sampleDashes
          (addChrReader sampleDashes (newConn ⟨"p", 185, 512⟩) ⟨⟨"2a37"⟩, 1⟩).2
          ⟨⟨"2a37"⟩, 1⟩ ⟨7⟩)
        ⟨⟨"2a37"⟩, [72]⟩ ⟨[80]⟩).2 = [] ∧
    (processChrRead sampleDashes (fun _ => false)
        (addSub sampleDashes
          (addChrReader sampleDashes (newConn ⟨"p", 185, 512⟩) ⟨⟨"2a37"⟩, 1⟩).2
          ⟨⟨"2a37"⟩, 1⟩ ⟨7⟩)
        ⟨⟨"2a37"⟩, [72]⟩ ⟨[80]⟩).returned = false := by
  decide

/-- C3, amended: in a state where the canonical key of `C` holds both a pending
read (channel `ch`) and a subscription `s`, `processChrRead` with an event for
`C` sends that event on `ch`.  When a goroutine receives on `ch`, the call
performs exactly two effects, the one send and then one call of the handler
of `s` with `cbchr.Value()`, logs nothing, leaves the connection as it was and
returns.  When nobody receives on `ch`, the call stays in the send: the send
is its only effect, the handler is not called and the call does not return. -/
theorem C3_read_and_subscription (f : String → String) (recv : Chan → Bool) (c : conn)
    (char : ble.Characteristic)
    (ev : eventChrRead) (cb : cbgo.Characteristic) (ch : Chan) (s : sub)
    (hev : f ev.uuid.String = f char.UUID.String)
    (hr : c.chrReads.lookup (f char.UUID.String) = some ch)
    (hs : c.subs.lookup (f char.UUID.String) = some s) :
    (recv ch = true →
      processChrRead f recv c ev cb = ⟨c, [Effect.send ch ev, Effect.call s cb.Value], true⟩ ∧
      sends (processChrRead f recv c ev cb).2 = [(ch, ev)] ∧
      calls (processChrRead f recv c ev cb).2 = [(s, cb.Value)] ∧
      logs (processChrRead f recv c ev cb).2 = []) ∧
    (recv ch = false →
      processChrRead f recv c ev cb = ⟨c, [Effect.send ch ev], false⟩ ∧
      sends (processChrRead f recv c ev cb).2 = [(ch, ev)] ∧
      calls (processChrRead f recv c ev cb).2 = [] ∧
      logs (processChrRead f recv c ev cb).2 = []) := by
  rw [← hev] at hr hs
  constructor
  · intro hrecv
    have h := processChrRead_both f recv c ev cb ch s hr hs hrecv
    refine ⟨h, ?_, ?_, ?_⟩ <;> rw [h] <;> rfl
  · intro hrecv
    have h := processChrRead_blocked f recv c ev cb ch hr hrecv
    refine ⟨h, ?_, ?_, ?_⟩ <;> rw [h] <;> rfl

/-- C3 (amended) at a concrete input: a read and a subscription for 2a37, then
an event for 2a37, once with a receiver on channel 0 and once without. -/
theorem C3_read_and_subscription_witness :
    (processChrRead sampleDashes (fun _ => true)
        (addSub sampleDashes
          (addChrReader sampleDashes (newConn ⟨"p", 185, 512⟩) ⟨⟨"2a37"⟩, 1⟩).2
          ⟨⟨"2a37"⟩, 1⟩ ⟨7⟩)
        ⟨⟨"2a37"⟩, [72]⟩ ⟨[80]⟩ =
      ⟨addSub sampleDashes
          (addChrReader sampleDashes (newConn ⟨"p", 185, 512⟩) ⟨⟨"2a37"⟩, 1⟩).2
          ⟨⟨"2a37"⟩, 1⟩ ⟨7⟩,
        [Effect.send ⟨0⟩ ⟨⟨"2a37"⟩, [72]⟩, Effect.call ⟨⟨7⟩, ⟨⟨"2a37"⟩, 1⟩⟩ [80]], true⟩) ∧
    (processChrRead sampleDashes (fun _ => false)
        (addSub sampleDashes
          (addChrReader sampleDashes (newConn ⟨"p", 185, 512⟩) ⟨⟨"2a37"⟩, 1⟩).2
          ⟨⟨"2a37"⟩, 1⟩ ⟨7⟩)
        ⟨⟨"2a37"⟩, [72]⟩ ⟨[80]⟩ =
      ⟨addSub sampleDashes
          (addChrReader sampleDashes (newConn ⟨"p", 185, 512⟩) ⟨⟨"2a37"⟩, 1⟩).2
          ⟨⟨"2a37"⟩, 1⟩ ⟨7⟩,
        [Effect.send ⟨0⟩ ⟨⟨"2a37"⟩, [72]⟩], false⟩) :=
  ⟨((C3_read_and_subscription sampleDashes (fun _ => true)
      (addSub sampleDashes
        (addChrReader sampleDashes (newConn ⟨"p", 185, 512⟩) ⟨⟨"2a37"⟩, 1⟩).2
        ⟨⟨"2a37"⟩, 1⟩ ⟨7⟩)
      ⟨⟨"2a37"⟩, 1⟩ ⟨⟨"2a37"⟩, [72]⟩ ⟨[80]⟩ ⟨0⟩ ⟨⟨7⟩, ⟨⟨"2a37"⟩, 1⟩⟩
      (by decide) (by decide) (by decide)).1 rfl).1,
   ((C3_read_and_subscription sampleDashes (fun _ => false)
      (addSub sampleDashes
        (addChrReader sampleDashes (newConn ⟨"p", 185, 512⟩) ⟨⟨"2a37"⟩, 1⟩).2
        ⟨⟨"2a37"⟩, 1⟩ ⟨7⟩)
      ⟨⟨"2a37"⟩, 1⟩ ⟨⟨"2a37"⟩, [72]⟩ ⟨[80]⟩ ⟨0⟩ ⟨⟨7⟩, ⟨⟨"2a37"⟩, 1⟩⟩
      (by decide) (by decide) (by decide)).2 rfl).1⟩

/-- C4, as stated, fails: a read for 2a37 is pending on channel 0 and nobody
receives on it; handler 7 and then handler 8 are subscribed to 2a37.  The
registry holds handler 8, but the following dispatch of an event for 2a37
stays in the send to channel 0 and calls no handler, so not handler 8 either. -/
theorem C4_counterexample :
    (addSub sampleDashes
        (addSub sampleDashes
          (addChrReader sampleDashes (newConn ⟨"p", 185, 512⟩) ⟨⟨"2a37"⟩, 1⟩).2
          ⟨⟨"2a37"⟩, 1⟩ ⟨7⟩)
        ⟨⟨"2a37"⟩, 1⟩ ⟨8⟩).subs.lookup "2a37" = some ⟨⟨8⟩, ⟨⟨"2a37"⟩, 1⟩⟩ ∧
    (processChrRead sampleDashes (fun _ => false)
        (addSub sampleDashes
          (addSub sampleDashes
            (addChrReader sampleDashes (newConn ⟨"p", 185, 512⟩) ⟨⟨"2a37"⟩, 1⟩).2
            ⟨⟨"2a37"⟩, 1⟩ ⟨7⟩)
          ⟨⟨"2a37"⟩, 1⟩ ⟨8⟩)
        ⟨⟨"2a37"⟩, [72]⟩ ⟨[80]⟩).2 = [Effect.send ⟨0⟩ ⟨⟨"2a37"⟩, [72]⟩] ∧
    calls (processChrRead sampleDashes (fun _ => false)
        (addSub sampleDashes
          (addSub sampleDashes
            (addChrReader sampleDashes (newConn ⟨"p", 185, 512⟩) ⟨⟨"2a37"⟩, 1⟩).2
            ⟨⟨"2a37"⟩, 1⟩ ⟨7⟩)
          ⟨⟨"2a37"⟩, 1⟩ ⟨8⟩)
        ⟨⟨"2a37"⟩, [72]⟩ ⟨[80]⟩).2 = [] ∧
    (processChrRead sampleDashes (fun _ => false)
        (addSub sampleDashes
          (addSub sampleDashes
            (addChrReader sampleDashes (newConn ⟨"p", 185, 512⟩) ⟨⟨"2a37"⟩, 1⟩).2
            ⟨⟨"2a37"⟩, 1⟩ ⟨7⟩)
          ⟨⟨"2a37"⟩, 1⟩ ⟨8⟩)
        ⟨⟨"2a37"⟩, [72]⟩ ⟨[80]⟩).returned = false := by
  decide

/-- C4, amended: `addSub(C, h1)` followed by `addSub(C, h2)` returns no error
(the operation has no failure result), leaves the subscription registry with
exactly one entry under the canonical key of `C`, holding `h2`, in the very
state that `addSub(C, h2)` alone leads to.  A following dispatch of an event
for `C` never invokes `h1` when `h1` is another handler.  It invokes `h2`
exactly once, with `cbchr.Value()`, and returns, unless a pending read under
the same key has a channel nobody receives on: then the dispatch stays in that
send, invokes no handler and does not return. -/
theorem C4_resubscribe_replaces (f : String → String) (c : conn) (char : ble.Characteristic)
    (h1 h2 : ble.NotificationHandler) :
    (addSub f (addSub f c char h1) char h2).subs.lookup (f char.UUID.String) =
      some ⟨h2, char⟩ ∧
    (addSub f (addSub f c char h1) char h2).subs.keys.count (f char.UUID.String) = 1 ∧
    addSub f (addSub f c char h1) char h2 = addSub f c char h2 ∧
    ∀ (recv : Chan → Bool) (ev : eventChrRead) (cb : cbgo.Characteristic),
      f ev.uuid.String = f char.UUID.String →
      ((∀ ch : Chan, c.chrReads.lookup (f char.UUID.String) = some ch → recv ch = true) →
        calls (processChrRead f recv (addSub f (addSub f c char h1) char h2) ev cb).2 =
          [(⟨h2, char⟩, cb.Value)] ∧
        (processChrRead f recv (addSub f (addSub f c char h1) char h2) ev cb).returned = true) ∧
      (∀ ch : Chan, c.chrReads.lookup (f char.UUID.String) = some ch → recv ch = false →
        calls (processChrRead f recv (addSub f (addSub f c char h1) char h2) ev cb).2 = [] ∧
        (processChrRead f recv (addSub f (addSub f c char h1) char h2) ev cb).returned = false) ∧
      (h1 ≠ h2 → ∀ (s : sub) (v : List Nat), s.fn = h1 →
        Effect.call s v ∉
          (processChrRead f recv (addSub f (addSub f c char h1) char h2) ev cb).2) := by
  have hl : (addSub f (addSub f c char h1) char h2).subs.lookup (f char.UUID.String) =
      some ⟨h2, char⟩ := by
    simp [addSub]
  have hb : ∀ recv : Chan → Bool,
      sendBlocks recv (addSub f (addSub f c char h1) char h2) (f char.UUID.String) =
        sendBlocks recv c (f char.UUID.String) := fun _ => rfl
  refine ⟨hl, ?_, ?_, ?_⟩
  · apply List.count_eq_one_of_mem (AList.keys_nodup _)
    simp [addSub]
  · simp [addSub]
  · intro recv ev cb hev
    refine ⟨?_, ?_, ?_⟩
    · intro hrecv
      have hnb : sendBlocks recv c (f char.UUID.String) = false := by
        cases hc : c.chrReads.lookup (f char.UUID.String) with
        | none => exact sendBlocks_of_none recv c _ hc
        | some ch => rw [sendBlocks_of_some recv c _ ch hc, hrecv ch hc]; rfl
      rw [calls_processChrRead, processChrRead_returned, hev, hl, hb, hnb]
      exact ⟨rfl, rfl⟩
    · intro ch hc hrecv
      have hbl : sendBlocks recv c (f char.UUID.String) = true := by
        rw [sendBlocks_of_some recv c _ ch hc, hrecv]; rfl
      rw [calls_processChrRead, processChrRead_returned, hev, hb, hbl]
      exact ⟨rfl, rfl⟩
    · intro hne s v hs hmem
      rw [mem_call_processChrRead, hev, hl] at hmem
      have : s = ⟨h2, char⟩ := by
        have := hmem.2.1
        simp only [Option.some.injEq] at this
        exact this.symm
      rw [this] at hs
      exact hne hs.symm

/-- C4 (amended) at a concrete input: handler 7 then handler 8 for 2a37 on a
fresh connection, then an event for 2a37. -/
theorem C4_resubscribe_replaces_witness :
    calls (processChrRead sampleDashes (fun _ => false)
        (addSub sampleDashes (addSub sampleDashes (newConn ⟨"p", 185, 512⟩) ⟨⟨"2a37"⟩, 1⟩ ⟨7⟩)
          ⟨⟨"2a37"⟩, 1⟩ ⟨8⟩)
        ⟨⟨"2a37"⟩, [72]⟩ ⟨[80]⟩).2 = [(⟨⟨8⟩, ⟨⟨"2a37"⟩, 1⟩⟩, [80])] ∧
    ∀ (v : List Nat), Effect.call ⟨⟨7⟩, ⟨⟨"2a37"⟩, 1⟩⟩ v ∉
      (processChrRead sampleDashes (fun _ => false)
        (addSub sampleDashes (addSub sampleDashes (newConn ⟨"p", 185, 512⟩) ⟨⟨"2a37"⟩, 1⟩ ⟨7⟩)
          ⟨⟨"2a37"⟩, 1⟩ ⟨8⟩)
        ⟨⟨"2a37"⟩, [72]⟩ ⟨[80]⟩).2 :=
  have h := (C4_resubscribe_replaces sampleDashes (newConn ⟨"p", 185, 512⟩) ⟨⟨"2a37"⟩, 1⟩
    ⟨7⟩ ⟨8⟩).2.2.2 (fun _ => false) ⟨⟨"2a37"⟩, [72]⟩ ⟨[80]⟩ (by decide)
  ⟨(h.1 (by decide)).1, fun v => h.2.2 (by decide) ⟨⟨7⟩, ⟨⟨"2a37"⟩, 1⟩⟩ v rfl⟩

/-- C5: when the canonical key of the event has neither a pending-read entry
nor a subscription entry, `processChrRead` returns, with the connection as it
was, after exactly one effect: the diagnostic log line naming that key.  It
sends on no channel and calls no handler. -/
theorem C5_unclaimed_event (f : String → String) (recv : Chan → Bool) (c : conn)
    (ev : eventChrRead) (cb : cbgo.Characteristic)
    (hr : c.chrReads.lookup (f ev.uuid.String) = none)
    (hs : c.subs.lookup (f ev.uuid.String) = none) :
    processChrRead f recv c ev cb =
      ⟨c, [Effect.log ("received characteristic read response without corresponding request: uuid="
            ++ f ev.uuid.String)], true⟩ ∧
    sends (processChrRead f recv c ev cb).2 = [] ∧
    calls (processChrRead f recv c ev cb).2 = [] ∧
    logs (processChrRead f recv c ev cb).2 = [unclaimedLine (f ev.uuid.String)] := by
  have h := processChrRead_unclaimed f recv c ev cb hr hs
  refine ⟨h, ?_, ?_, ?_⟩ <;> rw [h] <;> rfl

/-- C5 at a concrete input: an event for 2a38 on a connection that only has a
read and a subscription for 2a37. -/
theorem C5_unclaimed_event_witness :
    (processChrRead sampleDashes (fun _ => false)
        (addSub sampleDashes
          (addChrReader sampleDashes (newConn ⟨"p", 185, 512⟩) ⟨⟨"2a37"⟩, 1⟩).2
          ⟨⟨"2a37"⟩, 1⟩ ⟨7⟩)
        ⟨⟨"2a38"⟩, [72]⟩ ⟨[80]⟩).2 =
      [Effect.log "received characteristic read response without corresponding request: uuid=2a38"] :=
  congrArg Dispatched.trace (C5_unclaimed_event sampleDashes (fun _ => false)
    (addSub sampleDashes
      (addChrReader sampleDashes (newConn ⟨"p", 185, 512⟩) ⟨⟨"2a37"⟩, 1⟩).2
      ⟨⟨"2a37"⟩, 1⟩ ⟨7⟩)
    ⟨⟨"2a38"⟩, [72]⟩ ⟨[80]⟩ (by decide) (by decide)).1

/-- C6, as stated, fails: a connection with a read and a subscription for 2a37
whose `done` channel has been closed still sends the event for 2a37 on the
pending-read channel (where it is received) and calls the subscription
handler. -/
theorem C6_counterexample :
    Disconnected (disconnected (addSub sampleDashes
        (addChrReader sampleDashes (newConn ⟨"p", 185, 512⟩) ⟨⟨"2a37"⟩, 1⟩).2
        ⟨⟨"2a37"⟩, 1⟩ ⟨7⟩)) = true ∧
    (processChrRead sampleDashes (fun _ => true)
        (disconnected (addSub sampleDashes
          (addChrReader sampleDashes (newConn ⟨"p", 185, 512⟩) ⟨⟨"2a37"⟩, 1⟩).2
          ⟨⟨"2a37"⟩, 1⟩ ⟨7⟩))
        ⟨⟨"2a37"⟩, [72]⟩ ⟨[80]⟩).2 =
      [Effect.send ⟨0⟩ ⟨⟨"2a37"⟩, [72]⟩, Effect.call ⟨⟨7⟩, ⟨⟨"2a37"⟩, 1⟩⟩ [80]] := by
  decide

/-- C6, amended: `processChrRead` does not consult `c.done`.  Its effects are
the same after the goroutine of `newConn` has closed `c.done` as before, and
the same for either value of `done`; it sends on no channel and calls no
handler exactly when neither registry holds an entry under the event's key. -/
theorem C6_dispatch_ignores_done (f : String → String) (recv : Chan → Bool) (c : conn)
    (ev : eventChrRead) (cb : cbgo.Characteristic) :
    (processChrRead f recv (disconnected c) ev cb).2 = (processChrRead f recv c ev cb).2 ∧
    (∀ d : Bool, (processChrRead f recv { c with done := d } ev cb).2 =
      (processChrRead f recv c ev cb).2) ∧
    ((sends (processChrRead f recv c ev cb).2 = [] ∧
        calls (processChrRead f recv c ev cb).2 = []) ↔
      (c.chrReads.lookup (f ev.uuid.String) = none ∧ c.subs.lookup (f ev.uuid.String) = none)) := by
  refine ⟨?_, ?_, ?_⟩
  · by_cases hw : c.waiter = true
    · simp [disconnected, hw, processChrRead_trace, sendBlocks]
    · simp [disconnected, hw]
  · intro d
    simp [processChrRead_trace, sendBlocks]
  · rw [sends_processChrRead, calls_processChrRead]
    cases hr : c.chrReads.lookup (f ev.uuid.String) <;>
      cases hs : c.subs.lookup (f ev.uuid.String) <;>
      simp [sendBlocks, hr]

/-- C7, as stated, fails: a read is pending under the dashed key of identifier
0000180d00001000800000805f9b34fb and nobody receives on its channel 0; handler
7 is then subscribed to the same characteristic.  The dispatch of the event
carrying the dashed identifier stays in the send to channel 0 and does not
invoke handler 7. -/
theorem C7_counterexample :
    sampleDashes (ble.UUID.String ⟨"0000180d00001000800000805f9b34fb"⟩) =
      sampleDashes (cbgo.UUID.String ⟨"0000180d-0000-1000-8000-00805f9b34fb"⟩) ∧
    (processChrRead sampleDashes (fun _ => false)
        (addSub sampleDashes
          (addChrReader sampleDashes (newConn ⟨"p", 185, 512⟩)
            ⟨⟨"0000180d00001000800000805f9b34fb"⟩, 1⟩).2
          ⟨⟨"0000180d00001000800000805f9b34fb"⟩, 1⟩ ⟨7⟩)
        ⟨⟨"0000180d-0000-1000-8000-00805f9b34fb"⟩, [72]⟩ ⟨[80]⟩).2 =
      [Effect.send ⟨0⟩ ⟨⟨"0000180d-0000-1000-8000-00805f9b34fb"⟩, [72]⟩] ∧
    calls (processChrRead sampleDashes (fun _ => false)
        (addSub sampleDashes
          (addChrReader sampleDashes (newConn ⟨"p", 185, 512⟩)
            ⟨⟨"0000180d00001000800000805f9b34fb"⟩, 1⟩).2
          ⟨⟨"0000180d00001000800000805f9b34fb"⟩, 1⟩ ⟨7⟩)
        ⟨⟨"0000180d-0000-1000-8000-00805f9b34fb"⟩, [72]⟩ ⟨[80]⟩).2 = [] ∧
    (processChrRead sampleDashes (fun _ => false)
        (addSub sampleDashes
          (addChrReader sampleDashes (newConn ⟨"p", 185, 512⟩)
            ⟨⟨"0000180d00001000800000805f9b34fb"⟩, 1⟩).2
          ⟨⟨"0000180d00001000800000805f9b34fb"⟩, 1⟩ ⟨7⟩)
        ⟨⟨"0000180d-0000-1000-8000-00805f9b34fb"⟩, [72]⟩ ⟨[80]⟩).returned = false := by
  decide

/-- C7, amended: registration and dispatch key the registries by the same
`uuidStrWithDashes`.  When the identifier of characteristic `C` and that of
event `e` have the same canonical form, whatever their raw strings,
dispatching `e` after `addSub(C, h)` invokes `h` (once, with `cbchr.Value()`)
unless a pending read under that key has a channel nobody receives on, in
which case the dispatch stays in that send and invokes no handler; and
dispatching `e` after a successful `addChrReader(C)` sends `e` (once) on the
channel it returned. -/
theorem C7_same_canonical_key (f : String → String) (recv : Chan → Bool) (c : conn)
    (char : ble.Characteristic)
    (h : ble.NotificationHandler) (ev : eventChrRead) (cb : cbgo.Characteristic)
    (hk : f char.UUID.String = f ev.uuid.String) :
    ((∀ ch : Chan, c.chrReads.lookup (f char.UUID.String) = some ch → recv ch = true) →
      Effect.call ⟨h, char⟩ cb.Value ∈ (processChrRead f recv (addSub f c char h) ev cb).2 ∧
      calls (processChrRead f recv (addSub f c char h) ev cb).2 = [(⟨h, char⟩, cb.Value)]) ∧
    (∀ ch : Chan, c.chrReads.lookup (f char.UUID.String) = some ch → recv ch = false →
      calls (processChrRead f recv (addSub f c char h) ev cb).2 = [] ∧
      (processChrRead f recv (addSub f c char h) ev cb).returned = false) ∧
    (∀ ch : Chan, (addChrReader f c char).1 = Except.ok ch →
      Effect.send ch ev ∈ (processChrRead f recv (addChrReader f c char).2 ev cb).2 ∧
      sends (processChrRead f recv (addChrReader f c char).2 ev cb).2 = [(ch, ev)]) := by
  have hb : sendBlocks recv (addSub f c char h) (f char.UUID.String) =
      sendBlocks recv c (f char.UUID.String) := rfl
  have hl : (addSub f c char h).subs.lookup (f char.UUID.String) = some ⟨h, char⟩ := by
    simp [addSub]
  refine ⟨?_, ?_, ?_⟩
  · intro hrecv
    have hnb : sendBlocks recv c (f char.UUID.String) = false := by
      cases hc : c.chrReads.lookup (f char.UUID.String) with
      | none => exact sendBlocks_of_none recv c _ hc
      | some ch => rw [sendBlocks_of_some recv c _ ch hc, hrecv ch hc]; rfl
    refine ⟨?_, ?_⟩
    · rw [mem_call_processChrRead, ← hk, hb, hnb, hl]
      exact ⟨rfl, rfl, rfl⟩
    · rw [calls_processChrRead, ← hk, hb, hnb, hl]
      rfl
  · intro ch hc hrecv
    have hbl : sendBlocks recv c (f char.UUID.String) = true := by
      rw [sendBlocks_of_some recv c _ ch hc, hrecv]; rfl
    rw [calls_processChrRead, processChrRead_returned, ← hk, hb, hbl]
    exact ⟨rfl, rfl⟩
  · intro ch hadd
    cases hl : c.chrReads.lookup (f char.UUID.String) with
    | some ch0 => simp [addChrReader_of_pending f c char ch0 hl] at hadd
    | none =>
      rw [addChrReader_of_free f c char hl] at hadd ⊢
      simp only [Except.ok.injEq] at hadd
      subst hadd
      refine ⟨?_, ?_⟩
      · rw [mem_send_processChrRead, ← hk]
        exact ⟨AList.lookup_insert _, rfl⟩
      · rw [sends_processChrRead, ← hk]
        simp

/-- C7 (amended) at a concrete input: the characteristic is registered under
an undashed 32-digit identifier, the event carries the dashed form of the same
identifier. -/
theorem C7_same_canonical_key_witness :
    ble.UUID.String ⟨"0000180d00001000800000805f9b34fb"⟩ ≠
      cbgo.UUID.String ⟨"0000180d-0000-1000-8000-00805f9b34fb"⟩ ∧
    Effect.call ⟨⟨7⟩, ⟨⟨"0000180d00001000800000805f9b34fb"⟩, 1⟩⟩ [80] ∈
      (processChrRead sampleDashes (fun _ => true)
        (addSub sampleDashes (newConn ⟨"p", 185, 512⟩)
          ⟨⟨"0000180d00001000800000805f9b34fb"⟩, 1⟩ ⟨7⟩)
        ⟨⟨"0000180d-0000-1000-8000-00805f9b34fb"⟩, [72]⟩ ⟨[80]⟩).2 ∧
    Effect.send ⟨0⟩ ⟨⟨"0000180d-0000-1000-8000-00805f9b34fb"⟩, [72]⟩ ∈
      (processChrRead sampleDashes (fun _ => true)
        (addChrReader sampleDashes (newConn ⟨"p", 185, 512⟩)
          ⟨⟨"0000180d00001000800000805f9b34fb"⟩, 1⟩).2
        ⟨⟨"0000180d-0000-1000-8000-00805f9b34fb"⟩, [72]⟩ ⟨[80]⟩).2 :=
  have h := C7_same_canonical_key sampleDashes (fun _ => true) (newConn ⟨"p", 185, 512⟩)
    ⟨⟨"0000180d00001000800000805f9b34fb"⟩, 1⟩ ⟨7⟩
    ⟨⟨"0000180d-0000-1000-8000-00805f9b34fb"⟩, [72]⟩ ⟨[80]⟩ (by decide)
  ⟨by decide, (h.1 (fun _ _ => rfl)).1, (h.2.2 ⟨0⟩ (by decide)).1⟩

/-- C8, as stated, fails: a read for 2a37 is pending, and handler 7 is
subscribed both to 2a37 and to 2a38.  The state satisfies the registry
invariant.  Dispatching an event for 2a38 calls handler 7, a handler
registered under the key 2a37. -/
theorem C8_counterexample :
    WF sampleDashes (run sampleDashes (newConn ⟨"p", 185, 512⟩)
      [Op.addChrReader ⟨⟨"2a37"⟩, 1⟩, Op.addSub ⟨⟨"2a37"⟩, 1⟩ ⟨7⟩,
       Op.addSub ⟨⟨"2a38"⟩, 2⟩ ⟨7⟩]) ∧
    ((run sampleDashes (newConn ⟨"p", 185, 512⟩)
      [Op.addChrReader ⟨⟨"2a37"⟩, 1⟩, Op.addSub ⟨⟨"2a37"⟩, 1⟩ ⟨7⟩,
       Op.addSub ⟨⟨"2a38"⟩, 2⟩ ⟨7⟩]).subs.lookup "2a37").map (fun s => s.fn) = some ⟨7⟩ ∧
    (calls (processChrRead sampleDashes (fun _ => true)
      (run sampleDashes (newConn ⟨"p", 185, 512⟩)
        [Op.addChrReader ⟨⟨"2a37"⟩, 1⟩, Op.addSub ⟨⟨"2a37"⟩, 1⟩ ⟨7⟩,
         Op.addSub ⟨⟨"2a38"⟩, 2⟩ ⟨7⟩])
      ⟨⟨"2a38"⟩, [72]⟩ ⟨[80]⟩).2).map (fun p => p.1.fn) = [⟨7⟩] := by
  decide

/-- C8, amended: in a state satisfying the registry invariant (every reachable
state does), where the keys `K1` of `C1` and `K2` of `C2` differ and `K1`
holds a pending read on channel `ch1`, dispatching an event for `C2` sends
nothing on `ch1` and calls nothing but the subscription registered under `K2`:
the entry under `K1` is not called, and the handler registered under `K1` is
invoked only when that same handler is the one registered under `K2`.  When
`K2` has no consumer, the call returns after one effect, the diagnostic line
naming `K2`. -/
theorem C8_unrelated_event (f : String → String) (recv : Chan → Bool) (c : conn)
    (hwf : WF f c)
    (char1 char2 : ble.Characteristic) (ev : eventChrRead) (cb : cbgo.Characteristic)
    (ch1 : Chan)
    (hne : f char1.UUID.String ≠ f char2.UUID.String)
    (hev : f ev.uuid.String = f char2.UUID.String)
    (hr : c.chrReads.lookup (f char1.UUID.String) = some ch1) :
    (∀ e : eventChrRead, Effect.send ch1 e ∉ (processChrRead f recv c ev cb).2) ∧
    (∀ s1 : sub, c.subs.lookup (f char1.UUID.String) = some s1 →
      ∀ v : List Nat, Effect.call s1 v ∉ (processChrRead f recv c ev cb).2) ∧
    (∀ (s : sub) (v : List Nat), Effect.call s v ∈ (processChrRead f recv c ev cb).2 →
      c.subs.lookup (f char2.UUID.String) = some s) ∧
    (∀ s1 : sub, c.subs.lookup (f char1.UUID.String) = some s1 →
      (∀ s2 : sub, c.subs.lookup (f char2.UUID.String) = some s2 → s2.fn ≠ s1.fn) →
      ∀ (s : sub) (v : List Nat), s.fn = s1.fn →
        Effect.call s v ∉ (processChrRead f recv c ev cb).2) ∧
    (c.chrReads.lookup (f char2.UUID.String) = none →
      c.subs.lookup (f char2.UUID.String) = none →
      processChrRead f recv c ev cb =
        ⟨c, [Effect.log ("received characteristic read response without corresponding request: uuid="
              ++ f char2.UUID.String)], true⟩) := by
  refine ⟨?_, ?_, ?_, ?_, ?_⟩
  · intro e hmem
    rw [mem_send_processChrRead, hev] at hmem
    exact hne (WF_chan_inj f hwf hr hmem.1)
  · intro s1 hs1 v hmem
    rw [mem_call_processChrRead, hev] at hmem
    have e1 := WF_subs_key f hwf hs1
    have e2 := WF_subs_key f hwf hmem.2.1
    exact hne (e1.symm.trans e2)
  · intro s v hmem
    rw [mem_call_processChrRead, hev] at hmem
    exact hmem.2.1
  · intro s1 _ hdiff s v hfn hmem
    rw [mem_call_processChrRead, hev] at hmem
    exact hdiff s hmem.2.1 hfn
  · intro h1 h2
    rw [← hev] at h1 h2 ⊢
    exact processChrRead_unclaimed f recv c ev cb h1 h2

/-- C8 (amended) at a concrete input: a read and a subscription for 2a37 are
registered; an event for 2a38, which has no consumer, arrives. -/
theorem C8_unrelated_event_witness :
    (∀ e : eventChrRead, Effect.send ⟨0⟩ e ∉
      (processChrRead sampleDashes (fun _ => true)
        (run sampleDashes (newConn ⟨"p", 185, 512⟩)
          [Op.addChrReader ⟨⟨"2a37"⟩, 1⟩, Op.addSub ⟨⟨"2a37"⟩, 1⟩ ⟨7⟩])
        ⟨⟨"2a38"⟩, [72]⟩ ⟨[80]⟩).2) ∧
    (∀ v : List Nat, Effect.call ⟨⟨7⟩, ⟨⟨"2a37"⟩, 1⟩⟩ v ∉
      (processChrRead sampleDashes (fun _ => true)
        (run sampleDashes (newConn ⟨"p", 185, 512⟩)
          [Op.addChrReader ⟨⟨"2a37"⟩, 1⟩, Op.addSub ⟨⟨"2a37"⟩, 1⟩ ⟨7⟩])
        ⟨⟨"2a38"⟩, [72]⟩ ⟨[80]⟩).2) ∧
    (processChrRead sampleDashes (fun _ => true)
        (run sampleDashes (newConn ⟨"p", 185, 512⟩)
          [Op.addChrReader ⟨⟨"2a37"⟩, 1⟩, Op.addSub ⟨⟨"2a37"⟩, 1⟩ ⟨7⟩])
        ⟨⟨"2a38"⟩, [72]⟩ ⟨[80]⟩).2 =
      [Effect.log "received characteristic read response without corresponding request: uuid=2a38"] :=
  have h := C8_unrelated_event sampleDashes (fun _ => true)
    (run sampleDashes (newConn ⟨"p", 185, 512⟩)
      [Op.addChrReader ⟨⟨"2a37"⟩, 1⟩, Op.addSub ⟨⟨"2a37"⟩, 1⟩ ⟨7⟩])
    (by decide) ⟨⟨"2a37"⟩, 1⟩ ⟨⟨"2a38"⟩, 2⟩ ⟨⟨"2a38"⟩, [72]⟩ ⟨[80]⟩ ⟨0⟩
    (by decide) (by decide) (by decide)
  ⟨h.1, h.2.1 ⟨⟨7⟩, ⟨⟨"2a37"⟩, 1⟩⟩ (by decide),
    congrArg Dispatched.trace (h.2.2.2.2 (by decide) (by decide))⟩

/-- C9: `delChrReader(C)` followed by `addChrReader(C)` succeeds and returns a
fresh channel, registered under the canonical key of `C`, whether or not a
read was pending for `C` before. -/
theorem C9_del_then_add (f : String → String) (c : conn) (char : ble.Characteristic) :
    (addChrReader f (delChrReader f c char) char).1 = Except.ok ⟨c.made⟩ ∧
    (addChrReader f (delChrReader f c char) char).2.chrReads.lookup (f char.UUID.String) =
      some ⟨c.made⟩ := by
  have hl : (delChrReader f c char).chrReads.lookup (f char.UUID.String) = none := by
    simp [delChrReader]
  rw [addChrReader_of_free f _ char hl]
  simp [delChrReader]

/-- C10: after `addSub(C, h)` followed by `delSub(C)`, dispatching an event for
`C` calls no handler at all; and after a successful `addChrReader(C)` followed
by `delChrReader(C)`, dispatching an event for `C` sends on no channel, so
nothing on the channel that `addChrReader` returned. -/
theorem C10_unregister_stops_delivery (f : String → String) (recv : Chan → Bool) (c : conn)
    (char : ble.Characteristic) (h : ble.NotificationHandler) (ev : eventChrRead)
    (cb : cbgo.Characteristic) (hev : f ev.uuid.String = f char.UUID.String) :
    (calls (processChrRead f recv (delSub f (addSub f c char h) char) ev cb).2 = [] ∧
      ∀ (s : sub) (v : List Nat),
        Effect.call s v ∉ (processChrRead f recv (delSub f (addSub f c char h) char) ev cb).2) ∧
    (∀ ch : Chan, (addChrReader f c char).1 = Except.ok ch →
      sends (processChrRead f recv
        (delChrReader f (addChrReader f c char).2 char) ev cb).2 = [] ∧
      ∀ e : eventChrRead, Effect.send ch e ∉
        (processChrRead f recv (delChrReader f (addChrReader f c char).2 char) ev cb).2) := by
  refine ⟨⟨?_, ?_⟩, ?_⟩
  · rw [calls_processChrRead, hev]
    simp [delSub]
  · intro s v hmem
    rw [mem_call_processChrRead, hev] at hmem
    simp [delSub] at hmem
  · intro ch _
    refine ⟨?_, ?_⟩
    · rw [sends_processChrRead, hev]
      simp [delChrReader]
    · intro e hmem
      rw [mem_send_processChrRead, hev] at hmem
      simp [delChrReader] at hmem

/-- C10 at a concrete input: subscribe and unsubscribe, read and unregister,
for 2a37, then an event for 2a37. -/
theorem C10_unregister_stops_delivery_witness :
    calls (processChrRead sampleDashes (fun _ => true)
        (delSub sampleDashes (addSub sampleDashes (newConn ⟨"p", 185, 512⟩) ⟨⟨"2a37"⟩, 1⟩ ⟨7⟩)
          ⟨⟨"2a37"⟩, 1⟩)
        ⟨⟨"2a37"⟩, [72]⟩ ⟨[80]⟩).2 = [] ∧
    ∀ e : eventChrRead, Effect.send ⟨0⟩ e ∉
      (processChrRead sampleDashes (fun _ => true)
        (delChrReader sampleDashes
          (addChrReader sampleDashes (newConn ⟨"p", 185, 512⟩) ⟨⟨"2a37"⟩, 1⟩).2 ⟨⟨"2a37"⟩, 1⟩)
        ⟨⟨"2a37"⟩, [72]⟩ ⟨[80]⟩).2 :=
  have h := C10_unregister_stops_delivery sampleDashes (fun _ => true) (newConn ⟨"p", 185, 512⟩)
    ⟨⟨"2a37"⟩, 1⟩ ⟨7⟩ ⟨⟨"2a37"⟩, [72]⟩ ⟨[80]⟩ (by decide)
  ⟨h.1.1, (h.2 ⟨0⟩ (by decide)).2⟩

/-- C11: when the canonical key of `C` has no pending-read entry,
`delChrReader(C)` returns with the whole connection state as it was, and when
it has no subscription entry so does `delSub(C)`; neither has an error result;
and in every state, applying either operation twice gives the same state as
applying it once. -/
theorem C11_unregister_absent_noop (f : String → String) (c : conn)
    (char : ble.Characteristic) :
    (c.chrReads.lookup (f char.UUID.String) = none → delChrReader f c char = c) ∧
    (c.subs.lookup (f char.UUID.String) = none → delSub f c char = c) ∧
    delChrReader f (delChrReader f c char) char = delChrReader f c char ∧
    delSub f (delSub f c char) char = delSub f c char := by
  refine ⟨?_, ?_, ?_, ?_⟩
  · intro h
    simp only [delChrReader]
    rw [AList_erase_of_lookup_none _ _ h]
  · intro h
    simp only [delSub]
    rw [AList_erase_of_lookup_none _ _ h]
  · simp only [delChrReader]
    rw [AList_erase_idem]
  · simp only [delSub]
    rw [AList_erase_idem]

/-- C11 at a concrete input: unregistering 2a38 on a connection that only
knows 2a37. -/
theorem C11_unregister_absent_noop_witness :
    delChrReader sampleDashes
        (run sampleDashes (newConn ⟨"p", 185, 512⟩)
          [Op.addChrReader ⟨⟨"2a37"⟩, 1⟩, Op.addSub ⟨⟨"2a37"⟩, 1⟩ ⟨7⟩])
        ⟨⟨"2a38"⟩, 2⟩ =
      run sampleDashes (newConn ⟨"p", 185, 512⟩)
        [Op.addChrReader ⟨⟨"2a37"⟩, 1⟩, Op.addSub ⟨⟨"2a37"⟩, 1⟩ ⟨7⟩] ∧
    delSub sampleDashes
        (run sampleDashes (newConn ⟨"p", 185, 512⟩)
          [Op.addChrReader ⟨⟨"2a37"⟩, 1⟩, Op.addSub ⟨⟨"2a37"⟩, 1⟩ ⟨7⟩])
        ⟨⟨"2a38"⟩, 2⟩ =
      run sampleDashes (newConn ⟨"p", 185, 512⟩)
        [Op.addChrReader ⟨⟨"2a37"⟩, 1⟩, Op.addSub ⟨⟨"2a37"⟩, 1⟩ ⟨7⟩] :=
  have h := C11_unregister_absent_noop sampleDashes
    (run sampleDashes (newConn ⟨"p", 185, 512⟩)
      [Op.addChrReader ⟨⟨"2a37"⟩, 1⟩, Op.addSub ⟨⟨"2a37"⟩, 1⟩ ⟨7⟩])
    ⟨⟨"2a38"⟩, 2⟩
  ⟨h.1 (by decide), h.2.1 (by decide)⟩

/-- C12: `c.done` is open in the state `newConn` returns; the only step that
closes it is the step of the goroutine of `newConn` on the disconnect
notification, every other operation and `Close` leaving it as it is; once
closed it stays closed under every operation; and along any sequence of
operations `close(c.done)` is executed at most once, on a fresh connection
exactly once if the notification arrives and not at all otherwise. -/
theorem C12_done_fires_once (f : String → String) :
    (∀ prph : cbgo.Peripheral, Disconnected (newConn prph) = false) ∧
    (∀ (c : conn) (op : Op), op ≠ Op.disconnected →
      Disconnected (step f c op) = Disconnected c) ∧
    (∀ c : conn, Close c = (c, none)) ∧
    (∀ (c : conn) (ops : List Op), Disconnected c = true →
      Disconnected (run f c ops) = true) ∧
    (∀ (c : conn) (ops : List Op), closes f c ops ≤ 1) ∧
    (∀ (prph : cbgo.Peripheral) (ops : List Op),
      closes f (newConn prph) ops = (if Op.disconnected ∈ ops then 1 else 0) ∧
      Disconnected (run f (newConn prph) ops) = decide (Op.disconnected ∈ ops)) := by
  refine ⟨fun _ => rfl, ?_, fun _ => rfl, ?_, ?_, ?_⟩
  · intro c op hop
    simp [Disconnected, step_done, hop]
  · intro c ops hd
    simp only [Disconnected] at hd ⊢
    rw [run_done, hd]
    rfl
  · intro c ops
    rw [closes_eq]
    split <;> simp
  · intro prph ops
    refine ⟨?_, ?_⟩
    · rw [closes_eq]
      simp [newConn]
    · simp only [Disconnected]
      rw [run_done]
      simp [newConn]

/-- C12 at a concrete input: two disconnect notifications among other
operations close `c.done` once, and it stays closed. -/
theorem C12_done_fires_once_witness :
    closes sampleDashes (newConn ⟨"p", 185, 512⟩)
        [Op.addChrReader ⟨⟨"2a37"⟩, 1⟩, Op.disconnected, Op.SetTxMTU 100, Op.disconnected,
         Op.delChrReader ⟨⟨"2a37"⟩, 1⟩] = 1 ∧
    Disconnected (run sampleDashes (run sampleDashes (newConn ⟨"p", 185, 512⟩) [Op.disconnected])
        [Op.SetRxMTU 50, Op.processChrRead ⟨⟨"2a37"⟩, [72]⟩ ⟨[80]⟩, Op.disconnected]) = true :=
  have h := C12_done_fires_once sampleDashes
  ⟨(h.2.2.2.2.2 ⟨"p", 185, 512⟩ _).1,
   h.2.2.2.1 (run sampleDashes (newConn ⟨"p", 185, 512⟩) [Op.disconnected]) _ (by decide)⟩

/-- C13: after `SetTxMTU(n)`, `TxMTU()` returns `n` and `RxMTU()` what it
returned before; after `SetRxMTU(n)`, `RxMTU()` returns `n` and `TxMTU()` what
it returned before; neither setter changes a registry or the signal. -/
theorem C13_mtu_independent (c : conn) (n : Int) :
    TxMTU (SetTxMTU c n) = n ∧ RxMTU (SetTxMTU c n) = RxMTU c ∧
    RxMTU (SetRxMTU c n) = n ∧ TxMTU (SetRxMTU c n) = TxMTU c ∧
    (SetTxMTU c n).subs = c.subs ∧ (SetTxMTU c n).chrReads = c.chrReads ∧
    (SetRxMTU c n).subs = c.subs ∧ (SetRxMTU c n).chrReads = c.chrReads ∧
    Disconnected (SetTxMTU c n) = Disconnected c ∧
    Disconnected (SetRxMTU c n) = Disconnected c :=
  ⟨rfl, rfl, rfl, rfl, rfl, rfl, rfl, rfl, rfl, rfl⟩

/-- C14, evaluated on the code: `TxMTU()` takes neither `RLock` nor `Lock`.
Goroutine 0 runs `SetTxMTU(n)` and goroutine 1 runs `TxMTU()` on a connection
whose `txMTU` is `v`.  Both schedules below run to the end, and in both the
read of `txMTU` happens while goroutine 0 holds the exclusive lock: once
before the assignment, returning `v`, once after it, returning `n`.  The lock
does not order the read against the write. -/
theorem C14_TxMTU_reads_without_lock (v n : Int) :
    (Act.RLock ∉ TxMTU_body ∧ Act.Lock ∉ TxMTU_body) ∧
    (actsOf 0 [(0, Act.Lock), (1, Act.load), (0, Act.store n), (0, Act.Unlock)] =
        SetTxMTU_body n ∧
      actsOf 1 [(0, Act.Lock), (1, Act.load), (0, Act.store n), (0, Act.Unlock)] =
        TxMTU_body ∧
      Shared.runSched ⟨v, none, [], []⟩
          [(0, Act.Lock), (1, Act.load), (0, Act.store n), (0, Act.Unlock)] =
        some ⟨n, none, [], [(1, v, true)]⟩) ∧
    (actsOf 0 [(0, Act.Lock), (0, Act.store n), (1, Act.load), (0, Act.Unlock)] =
        SetTxMTU_body n ∧
      actsOf 1 [(0, Act.Lock), (0, Act.store n), (1, Act.load), (0, Act.Unlock)] =
        TxMTU_body ∧
      Shared.runSched ⟨v, none, [], []⟩
          [(0, Act.Lock), (0, Act.store n), (1, Act.load), (0, Act.Unlock)] =
        some ⟨n, none, [], [(1, n, true)]⟩) := by
  refine ⟨⟨by decide, by decide⟩, ⟨rfl, rfl, ?_⟩, ⟨rfl, rfl, ?_⟩⟩
  · simp [Shared.runSched, Shared.exec]
  · simp [Shared.runSched, Shared.exec]

/-- C15: the effects of `processChrRead` are decided by the entries under the
event's canonical key.  With only a pending read on `ch`: one send of the
event on `ch`, no call, no log line.  With only a subscription `s`: one call
of `s` with `cbchr.Value()`, no send, no log line.  The diagnostic is logged
if and only if neither entry exists, and then once. -/
theorem C15_outcome_by_entries (f : String → String) (recv : Chan → Bool) (c : conn)
    (ev : eventChrRead) (cb : cbgo.Characteristic) :
    (∀ ch : Chan, c.chrReads.lookup (f ev.uuid.String) = some ch →
      c.subs.lookup (f ev.uuid.String) = none →
      (processChrRead f recv c ev cb).2 = [Effect.send ch ev]) ∧
    (∀ s : sub, c.chrReads.lookup (f ev.uuid.String) = none →
      c.subs.lookup (f ev.uuid.String) = some s →
      (processChrRead f recv c ev cb).2 = [Effect.call s cb.Value]) ∧
    ((∃ line, Effect.log line ∈ (processChrRead f recv c ev cb).2) ↔
      (c.chrReads.lookup (f ev.uuid.String) = none ∧
        c.subs.lookup (f ev.uuid.String) = none)) ∧
    (logs (processChrRead f recv c ev cb).2 =
        ["received characteristic read response without corresponding request: uuid="
          ++ f ev.uuid.String] ∨
      logs (processChrRead f recv c ev cb).2 = []) := by
  refine ⟨?_, ?_, ?_, ?_⟩
  · intro ch hr hs
    exact processChrRead_readOnly f recv c ev cb ch hr hs
  · intro s hr hs
    rw [processChrRead_subOnly f recv c ev cb s hr hs]
  · constructor
    · rintro ⟨line, hl⟩
      have := (mem_log_processChrRead f recv c ev cb line).mp hl
      exact ⟨this.1, this.2.1⟩
    · rintro ⟨hr, hs⟩
      exact ⟨_, (mem_log_processChrRead f recv c ev cb _).mpr ⟨hr, hs, rfl⟩⟩
  · rw [logs_processChrRead]
    split
    · exact Or.inl rfl
    · exact Or.inr rfl

/-- C15 at concrete inputs: an event for 2a37 with only a read pending, and
with only a subscription registered. -/
theorem C15_outcome_by_entries_witness :
    (processChrRead sampleDashes (fun _ => true)
        (addChrReader sampleDashes (newConn ⟨"p", 185, 512⟩) ⟨⟨"2a37"⟩, 1⟩).2
        ⟨⟨"2a37"⟩, [72]⟩ ⟨[80]⟩).2 = [Effect.send ⟨0⟩ ⟨⟨"2a37"⟩, [72]⟩] ∧
    (processChrRead sampleDashes (fun _ => true)
        (addSub sampleDashes (newConn ⟨"p", 185, 512⟩) ⟨⟨"2a37"⟩, 1⟩ ⟨7⟩)
        ⟨⟨"2a37"⟩, [72]⟩ ⟨[80]⟩).2 = [Effect.call ⟨⟨7⟩, ⟨⟨"2a37"⟩, 1⟩⟩ [80]] :=
  ⟨(C15_outcome_by_entries sampleDashes (fun _ => true)
      (addChrReader sampleDashes (newConn ⟨"p", 185, 512⟩) ⟨⟨"2a37"⟩, 1⟩).2
      ⟨⟨"2a37"⟩, [72]⟩ ⟨[80]⟩).1 ⟨0⟩ (by decide) (by decide),
   (C15_outcome_by_entries sampleDashes (fun _ => true)
      (addSub sampleDashes (newConn ⟨"p", 185, 512⟩) ⟨⟨"2a37"⟩, 1⟩ ⟨7⟩)
      ⟨⟨"2a37"⟩, [72]⟩ ⟨[80]⟩).2.1 ⟨⟨7⟩, ⟨⟨"2a37"⟩, 1⟩⟩ (by decide) (by decide)⟩

/-- C16, as stated, fails: for a peripheral whose `MaximumWriteValueLength(false)`
is the smallest `int`, -9223372036854775808, the subtraction in `newConn`
wraps and the transmit MTU is 9223372036854775805, not the length minus 3. -/
theorem C16_counterexample :
    TxMTU (newConn ⟨"p", 185, -9223372036854775808⟩) = 9223372036854775805 ∧
    TxMTU (newConn ⟨"p", 185, -9223372036854775808⟩) ≠
      cbgo.Peripheral.MaximumWriteValueLength ⟨"p", 185, -9223372036854775808⟩ false - 3 := by
  decide

/-- C16, amended: for a peripheral whose `MaximumWriteValueLength(false)` is an
`int`, the connection `newConn` returns has receive MTU 23 and, as transmit
MTU, that length minus 3 in the arithmetic of `int`: the exact difference for
every length from -9223372036854775805 up, and the difference plus 2^64 for
the three smaller lengths.  Both registries are empty and `c.done` is open; so
the first `addChrReader` for any characteristic succeeds and the first
dispatch of any event returns after logging the diagnostic only. -/
theorem C16_newConn_initial (f : String → String) (prph : cbgo.Peripheral)
    (hlo : -9223372036854775808 ≤ prph.MaximumWriteValueLength false)
    (hhi : prph.MaximumWriteValueLength false ≤ 9223372036854775807) :
    RxMTU (newConn prph) = 23 ∧
    (-9223372036854775808 ≤ TxMTU (newConn prph) ∧
      TxMTU (newConn prph) ≤ 9223372036854775807) ∧
    (-9223372036854775805 ≤ prph.MaximumWriteValueLength false →
      TxMTU (newConn prph) = prph.MaximumWriteValueLength false - 3) ∧
    (prph.MaximumWriteValueLength false < -9223372036854775805 →
      TxMTU (newConn prph) =
        prph.MaximumWriteValueLength false - 3 + 18446744073709551616) ∧
    (newConn prph).subs.entries = [] ∧
    (newConn prph).chrReads.entries = [] ∧
    Disconnected (newConn prph) = false ∧
    (∀ char : ble.Characteristic,
      (addChrReader f (newConn prph) char).1 = Except.ok ⟨0⟩) ∧
    (∀ (recv : Chan → Bool) (ev : eventChrRead) (cb : cbgo.Characteristic),
      processChrRead f recv (newConn prph) ev cb =
        ⟨newConn prph,
          [Effect.log ("received characteristic read response without corresponding request: uuid="
            ++ f ev.uuid.String)], true⟩) := by
  have htx : TxMTU (newConn prph) =
      (prph.MaximumWriteValueLength false - 3 + 9223372036854775808) % 18446744073709551616 -
        9223372036854775808 := by
    simp only [TxMTU, newConn, wrapInt]
    norm_num
  refine ⟨rfl, ?_, ?_, ?_, rfl, rfl, rfl, ?_, ?_⟩
  · rw [htx]
    omega
  · intro h
    rw [htx]
    omega
  · intro h
    rw [htx]
    omega
  · intro char
    have h : (newConn prph).chrReads.lookup (f char.UUID.String) = none := by
      simp [newConn]
    rw [addChrReader_of_free f _ char h]
    rfl
  · intro recv ev cb
    exact processChrRead_unclaimed f recv _ ev cb (by simp [newConn]) (by simp [newConn])

/-- C16 (amended) at a concrete input: a peripheral whose maximum write length
without response is 512. -/
theorem C16_newConn_initial_witness :
    TxMTU (newConn ⟨"p", 185, 512⟩) = 509 :=
  (C16_newConn_initial sampleDashes ⟨"p", 185, 512⟩ (by decide) (by decide)).2.2.1 (by decide)

/-- C17: `processChrRead` writes nothing.  The connection after the call is the
connection before it: both registries, both MTUs and the signal are the same,
so the pending read and the subscription that were just served are still
registered under the event's key. -/
theorem C17_processChrRead_read_only (f : String → String) (recv : Chan → Bool) (c : conn)
    (ev : eventChrRead) (cb : cbgo.Characteristic) :
    (processChrRead f recv c ev cb).1 = c ∧
    (processChrRead f recv c ev cb).1.chrReads = c.chrReads ∧
    (processChrRead f recv c ev cb).1.subs = c.subs ∧
    RxMTU (processChrRead f recv c ev cb).1 = RxMTU c ∧
    TxMTU (processChrRead f recv c ev cb).1 = TxMTU c ∧
    Disconnected (processChrRead f recv c ev cb).1 = Disconnected c ∧
    (processChrRead f recv c ev cb).1.chrReads.lookup (f ev.uuid.String) =
      c.chrReads.lookup (f ev.uuid.String) ∧
    (processChrRead f recv c ev cb).1.subs.lookup (f ev.uuid.String) =
      c.subs.lookup (f ev.uuid.String) ∧
    (processChrRead f recv (processChrRead f recv c ev cb).1 ev cb).2 =
      (processChrRead f recv c ev cb).2 := by
  have h := processChrRead_conn f recv c ev cb
  refine ⟨h, ?_, ?_, ?_, ?_, ?_, ?_, ?_, ?_⟩ <;> rw [h]

/-- C18: in a state where `C` already has a pending read on channel `ch`, the
rejected `addChrReader(C)` returns the duplicate-read error and the connection
exactly as it was; a later dispatch of an event for `C` still sends it, once,
on `ch`. -/
theorem C18_failed_add_atomic (f : String → String) (c : conn) (char : ble.Characteristic)
    (ch : Chan) (hp : c.chrReads.lookup (f char.UUID.String) = some ch) :
    addChrReader f c char = (Except.error (duplicateReadError (f char.UUID.String)), c) ∧
    (addChrReader f c char).2.chrReads.lookup (f char.UUID.String) = some ch ∧
    (∀ (recv : Chan → Bool) (ev : eventChrRead) (cb : cbgo.Characteristic),
      f ev.uuid.String = f char.UUID.String →
      sends (processChrRead f recv (addChrReader f c char).2 ev cb).2 = [(ch, ev)]) := by
  have h := addChrReader_of_pending f c char ch hp
  refine ⟨h, ?_, ?_⟩
  · rw [h]
    exact hp
  · intro recv ev cb hev
    rw [h, sends_processChrRead, hev]
    simp only [hp]

/-- C18 at a concrete input: a second read for 2a37 while the first is pending
on channel 0, then an event for 2a37. -/
theorem C18_failed_add_atomic_witness :
    addChrReader sampleDashes
        (addChrReader sampleDashes (newConn ⟨"p", 185, 512⟩) ⟨⟨"2a37"⟩, 1⟩).2 ⟨⟨"2a37"⟩, 1⟩ =
      (Except.error (duplicateReadError (sampleDashes "2a37")),
        (addChrReader sampleDashes (newConn ⟨"p", 185, 512⟩) ⟨⟨"2a37"⟩, 1⟩).2) ∧
    sends (processChrRead sampleDashes (fun _ => true)
        (addChrReader sampleDashes
          (addChrReader sampleDashes (newConn ⟨"p", 185, 512⟩) ⟨⟨"2a37"⟩, 1⟩).2
          ⟨⟨"2a37"⟩, 1⟩).2
        ⟨⟨"2a37"⟩, [72]⟩ ⟨[80]⟩).2 = [(⟨0⟩, ⟨⟨"2a37"⟩, [72]⟩)] :=
  have h := C18_failed_add_atomic sampleDashes
    (addChrReader sampleDashes (newConn ⟨"p", 185, 512⟩) ⟨⟨"2a37"⟩, 1⟩).2 ⟨⟨"2a37"⟩, 1⟩ ⟨0⟩
    (by decide)
  ⟨h.1, h.2.2 (fun _ => true) ⟨⟨"2a37"⟩, [72]⟩ ⟨[80]⟩ (by decide)⟩

/-- C19: `addChrReader` and `delChrReader` leave the subscription registry as
it is, `addSub` and `delSub` leave the pending-read registry as it is, none of
the four changes an MTU or the signal, and each leaves every entry of its own
registry under a key other than the canonical key of its characteristic as it
was. -/
theorem C19_registries_independent (f : String → String) (c : conn)
    (char : ble.Characteristic) (fn : ble.NotificationHandler) :
    ((addChrReader f c char).2.subs = c.subs ∧ (delChrReader f c char).subs = c.subs ∧
      (addSub f c char fn).chrReads = c.chrReads ∧ (delSub f c char).chrReads = c.chrReads) ∧
    (RxMTU (addChrReader f c char).2 = RxMTU c ∧ TxMTU (addChrReader f c char).2 = TxMTU c ∧
      RxMTU (delChrReader f c char) = RxMTU c ∧ TxMTU (delChrReader f c char) = TxMTU c ∧
      RxMTU (addSub f c char fn) = RxMTU c ∧ TxMTU (addSub f c char fn) = TxMTU c ∧
      RxMTU (delSub f c char) = RxMTU c ∧ TxMTU (delSub f c char) = TxMTU c) ∧
    (Disconnected (addChrReader f c char).2 = Disconnected c ∧
      Disconnected (delChrReader f c char) = Disconnected c ∧
      Disconnected (addSub f c char fn) = Disconnected c ∧
      Disconnected (delSub f c char) = Disconnected c) ∧
    (∀ k : String, k ≠ f char.UUID.String →
      (addChrReader f c char).2.chrReads.lookup k = c.chrReads.lookup k ∧
      (delChrReader f c char).chrReads.lookup k = c.chrReads.lookup k ∧
      (addSub f c char fn).subs.lookup k = c.subs.lookup k ∧
      (delSub f c char).subs.lookup k = c.subs.lookup k) := by
  have hf := addChrReader_frame f c char
  refine ⟨⟨hf.1, rfl, rfl, rfl⟩, ⟨hf.2.1, hf.2.2.1, rfl, rfl, rfl, rfl, rfl, rfl⟩,
    ⟨hf.2.2.2.2.1, rfl, rfl, rfl⟩, ?_⟩
  intro k hk
  refine ⟨?_, ?_, ?_, ?_⟩
  · cases h : c.chrReads.lookup (f char.UUID.String) with
    | none =>
      rw [addChrReader_of_free f c char h]
      exact AList.lookup_insert_ne hk
    | some ch => rw [addChrReader_of_pending f c char ch h]
  · exact AList.lookup_erase_ne hk
  · exact AList.lookup_insert_ne hk
  · exact AList.lookup_erase_ne hk

/-- C19 at a concrete input: with a read and a subscription for 2a37 in place,
the four operations for 2a38 leave the entries of 2a37 where they are. -/
theorem C19_registries_independent_witness :
    (addChrReader sampleDashes
        (run sampleDashes (newConn ⟨"p", 185, 512⟩)
          [Op.addChrReader ⟨⟨"2a37"⟩, 1⟩, Op.addSub ⟨⟨"2a37"⟩, 1⟩ ⟨7⟩])
        ⟨⟨"2a38"⟩, 2⟩).2.chrReads.lookup "2a37" =
      (run sampleDashes (newConn ⟨"p", 185, 512⟩)
        [Op.addChrReader ⟨⟨"2a37"⟩, 1⟩, Op.addSub ⟨⟨"2a37"⟩, 1⟩ ⟨7⟩]).chrReads.lookup "2a37" ∧
    (delSub sampleDashes
        (run sampleDashes (newConn ⟨"p", 185, 512⟩)
          [Op.addChrReader ⟨⟨"2a37"⟩, 1⟩, Op.addSub ⟨⟨"2a37"⟩, 1⟩ ⟨7⟩])
        ⟨⟨"2a38"⟩, 2⟩).subs.lookup "2a37" =
      (run sampleDashes (newConn ⟨"p", 185, 512⟩)
        [Op.addChrReader ⟨⟨"2a37"⟩, 1⟩, Op.addSub ⟨⟨"2a37"⟩, 1⟩ ⟨7⟩]).subs.lookup "2a37" :=
  have h := (C19_registries_independent sampleDashes
    (run sampleDashes (newConn ⟨"p", 185, 512⟩)
      [Op.addChrReader ⟨⟨"2a37"⟩, 1⟩, Op.addSub ⟨⟨"2a37"⟩, 1⟩ ⟨7⟩])
    ⟨⟨"2a38"⟩, 2⟩ ⟨9⟩).2.2.2 "2a37" (by decide)
  ⟨h.1, h.2.2.2⟩

end darwin
